import Mathlib

/-!
# ArduSub failsafe supervisor (`ArduSub/failsafe.cpp`)

A shallow embedding of the failsafe monitors of `ArduSub/failsafe.cpp`.

* `uint32_t` timestamps are natural numbers; every `+` and `-` the source
  performs on them is taken modulo `2^32` (`add32`, `sub32`).
* File-level and function-level `static` variables and the `failsafe` struct
  become explicit state records that each operation takes and returns.
* Calls into collaborators (motors, logger, ground-station link, mode
  switch) are recorded, in program order, as a list of `Effect`s.
* Values read from collaborators (`micros()`, `millis()`, `motors.armed()`,
  `mainLoop_count`, parameters `g.*`) are arguments of the operation.
-/

namespace ArduSub

/-! ## Machine arithmetic -/

/-- Number of values of a `uint32_t`. -/
def U32 : Nat := 4294967296

/-- Sum of two `uint32_t` values as C++ computes it: modulo `2^32`. -/
def add32 (a b : Nat) : Nat := (a + b) % U32

/-- Difference `a - b` of two `uint32_t` values as C++ computes it: modulo `2^32`. -/
def sub32 (a b : Nat) : Nat := (a % U32 + (U32 - b % U32)) % U32

/-! ## Data model -/

/-- Vehicle modes named in `failsafe.cpp`; the members of `control_mode_t` the
file does not name are `other n`. -/
inductive control_mode_t where
  | STABILIZE
  | ACRO
  | ALT_HOLD
  | AUTO
  | GUIDED
  | SURFACE
  | POSHOLD
  | other (n : Nat)
  deriving DecidableEq, Repr

/-- Reasons passed to `set_mode` in `failsafe.cpp`. -/
inductive mode_reason_t where
  | MODE_REASON_GCS_FAILSAFE
  | MODE_REASON_LEAK_FAILSAFE
  | MODE_REASON_TERRAIN_FAILSAFE
  deriving DecidableEq, Repr

/-- Error subsystems passed to `Log_Write_Error` in `failsafe.cpp`. -/
inductive ErrorSubsystem where
  | ERROR_SUBSYSTEM_CPU
  | ERROR_SUBSYSTEM_INPUT
  | ERROR_SUBSYSTEM_FAILSAFE_LEAK
  | ERROR_SUBSYSTEM_FAILSAFE_GCS
  | ERROR_SUBSYSTEM_FAILSAFE_TERRAIN
  deriving DecidableEq, Repr

/-- Error codes passed to `Log_Write_Error` in `failsafe.cpp`. -/
inductive ErrorCode where
  | ERROR_CODE_FAILSAFE_RESOLVED
  | ERROR_CODE_FAILSAFE_OCCURRED
  | ERROR_CODE_ERROR_RESOLVED
  deriving DecidableEq, Repr

/-- Severities passed to `gcs_send_text` in `failsafe.cpp`. -/
inductive Severity where
  | MAV_SEVERITY_CRITICAL
  | MAV_SEVERITY_WARNING
  deriving DecidableEq, Repr

/-- Operator messages sent by `failsafe.cpp`, one constructor per message text. -/
inductive Text where
  /-- The text "Lost manual control". -/
  | lost_manual_control
  /-- The text "Internal pressure critical!". -/
  | internal_pressure_critical
  /-- The text "Internal temperature critical!". -/
  | internal_temperature_critical
  /-- The text "Leak Detected". -/
  | leak_detected
  /-- The text "MYGCS: %d, heartbeat lost", with the value printed for `%d`. -/
  | heartbeat_lost (sysid_my_gcs : Int)
  /-- The text "Failsafe terrain triggered". -/
  | failsafe_terrain_triggered
  deriving DecidableEq, Repr

/-- Calls `failsafe.cpp` makes into its collaborators. -/
inductive Effect where
  /-- The call `motors.output_min()`: reduce actuator output to minimum. -/
  | motors_output_min
  /-- The call `motors.armed(false)`: full disarm. -/
  | motors_armed_false
  /-- The call `motors.output()`: push actuator output. -/
  | motors_output
  /-- The call `Log_Write_Error(subsystem, code)`. -/
  | Log_Write_Error (subsystem : ErrorSubsystem) (code : ErrorCode)
  /-- The calls `gcs_send_text(severity, text)` and `gcs_send_text_fmt`. -/
  | gcs_send_text (severity : Severity) (text : Text)
  /-- The call `set_neutral_controls()`. -/
  | set_neutral_controls
  /-- The call `init_disarm_motors()`. -/
  | init_disarm_motors
  /-- The call `set_mode(mode, reason)`. -/
  | set_mode (mode : control_mode_t) (reason : mode_reason_t)
  /-- The call `auto_terrain_recover_start()`. -/
  | auto_terrain_recover_start
  /-- The write `AP_Notify::events.failsafe_mode_change = 1`. -/
  | notify_failsafe_mode_change
  /-- The write `AP_Notify::flags.leak_detected = status`. -/
  | notify_leak_detected (status : Bool)
  deriving DecidableEq, Repr

/-- The file-level statics of the main-loop watchdog, zero-initialised as in C++. -/
structure WatchdogState where
  failsafe_enabled : Bool := false
  failsafe_last_mainLoop_count : Nat := 0
  failsafe_last_timestamp : Nat := 0
  in_failsafe : Bool := false
  deriving DecidableEq, Repr

/-- The fields of the `failsafe` struct that `failsafe.cpp` reads or writes;
flags start false and timestamps zero. -/
structure Failsafe where
  manual_control : Bool := false
  internal_pressure : Bool := false
  internal_temperature : Bool := false
  leak : Bool := false
  gcs : Bool := false
  terrain : Bool := false
  last_manual_control_ms : Nat := 0
  last_leak_warn_ms : Nat := 0
  last_heartbeat_ms : Nat := 0
  last_gcs_warn_ms : Nat := 0
  terrain_first_failure_ms : Nat := 0
  terrain_last_failure_ms : Nat := 0
  deriving DecidableEq, Repr

/-- The state the main-loop monitors own: the `failsafe` struct and the
function-level statics of the pressure and temperature checks. -/
structure Sub where
  failsafe : Failsafe := {}
  last_pressure_warn_ms : Nat := 0
  last_pressure_good_ms : Nat := 0
  last_temperature_warn_ms : Nat := 0
  last_temperature_good_ms : Nat := 0
  deriving DecidableEq, Repr

/-- The preprocessor constants `failsafe.cpp` uses; their values are fixed in
headers outside this file, so they are parameters here. -/
structure Defines where
  FS_GCS_DISABLED : Int
  FS_GCS_DISARM : Int
  FS_GCS_HOLD : Int
  FS_GCS_SURFACE : Int
  FS_GCS_TIMEOUT_MS : Nat
  FS_PRESS_DISABLED : Int
  FS_TEMP_DISABLED : Int
  FS_LEAK_DISABLED : Int
  FS_LEAK_SURFACE : Int
  FS_TERRAIN_HOLD : Int
  FS_TERRAIN_SURFACE : Int
  FS_TERRAIN_DISARM : Int
  FS_TERRAIN_TIMEOUT_MS : Nat
  deriving DecidableEq, Repr

/-- The parameters `g.*` that `failsafe.cpp` reads. The field defaults only
abbreviate sample values; they are not the firmware's parameter defaults. -/
structure Parameters where
  failsafe_gcs : Int := 0
  failsafe_pressure : Int := 0
  failsafe_temperature : Int := 0
  failsafe_leak : Int := 0
  failsafe_terrain : Int := 0
  sysid_my_gcs : Int := 255
  deriving DecidableEq, Repr

/-! ## Main-loop watchdog -/

/-- Embedding of `Sub::failsafe_enable`; the argument `micros` is the value
`micros()` returns. -/
def failsafe_enable (micros : Nat) (w : WatchdogState) : WatchdogState :=
  { w with failsafe_enabled := true, failsafe_last_timestamp := micros }

/-- Embedding of `Sub::failsafe_disable`. -/
def failsafe_disable (w : WatchdogState) : WatchdogState :=
  { w with failsafe_enabled := false }

/-- Embedding of `Sub::failsafe_check`. `tnow` is the value of
`AP_HAL::micros()`, `mainLoop_count` the main loop's counter and `armed` what
`motors.armed()` returns during the call (`motors.output_min()` leaves the
armed flag as it is). -/
def failsafe_check (mainLoop_count : Nat) (armed : Bool) (tnow : Nat)
    (w : WatchdogState) : WatchdogState × List Effect :=
  if mainLoop_count ≠ w.failsafe_last_mainLoop_count then
    -- the main loop is running, all is OK
    let w1 := { w with failsafe_last_mainLoop_count := mainLoop_count,
                       failsafe_last_timestamp := tnow }
    if w1.in_failsafe then
      ({ w1 with in_failsafe := false },
        [Effect.Log_Write_Error .ERROR_SUBSYSTEM_CPU .ERROR_CODE_FAILSAFE_RESOLVED])
    else
      (w1, [])
  else
    let (w1, e1) :=
      if !w.in_failsafe && w.failsafe_enabled
          && decide (sub32 tnow w.failsafe_last_timestamp > 2000000) then
        ({ w with in_failsafe := true },
          (if armed then [Effect.motors_output_min] else [])
            ++ [Effect.Log_Write_Error .ERROR_SUBSYSTEM_CPU .ERROR_CODE_FAILSAFE_OCCURRED])
      else
        (w, [])
    if w1.failsafe_enabled && w1.in_failsafe
        && decide (sub32 tnow w1.failsafe_last_timestamp > 1000000) then
      ({ w1 with failsafe_last_timestamp := tnow },
        e1 ++ (if armed then [Effect.motors_armed_false, Effect.motors_output] else []))
    else
      (w1, e1)

/-- One invocation of the watchdog from the timer interrupt: the values the
call reads from its environment. -/
structure Tick where
  tnow : Nat
  mainLoop_count : Nat
  armed : Bool
  deriving DecidableEq, Repr

/-- One entry of a watchdog run: the tick, and the effects it requested. -/
structure TickRecord where
  tick : Tick
  before : WatchdogState
  after : WatchdogState
  effects : List Effect
  deriving DecidableEq, Repr

/-- Run `failsafe_check` over a sequence of ticks, threading the watchdog
state, and record each tick with the effects it requested. -/
def watchdog_run (w : WatchdogState) : List Tick → List TickRecord
  | [] => []
  | tk :: rest =>
    let r := failsafe_check tk.mainLoop_count tk.armed tk.tnow w
    { tick := tk, before := w, after := r.1, effects := r.2 } :: watchdog_run r.1 rest

/-- The effect trace of a watchdog run, in program order. -/
def watchdog_effects (w : WatchdogState) (ticks : List Tick) : List Effect :=
  ((watchdog_run w ticks).map (fun r => r.effects)).flatten

/-! ## Ground-station link monitor -/

/-- Embedding of `Sub::failsafe_gcs_check`. `tnow` is the value of
`AP_HAL::millis()` and `armed` what `motors.armed()` returns during the call.
The test `!g.failsafe_gcs` of an integer parameter is `g.failsafe_gcs = 0`. -/
def failsafe_gcs_check (d : Defines) (g : Parameters) (armed : Bool) (tnow : Nat)
    (f : Failsafe) : Failsafe × List Effect :=
  -- return immediately if we have never had contact with a gcs, or if gcs failsafe action is disabled
  if f.last_heartbeat_ms = 0 ∨ (g.failsafe_gcs = 0 ∧ g.failsafe_gcs = d.FS_GCS_DISABLED) then
    (f, [])
  -- check if we have gotten a GCS heartbeat recently
  else if tnow < add32 f.last_heartbeat_ms d.FS_GCS_TIMEOUT_MS then
    ({ f with gcs := false },
      if f.gcs then
        [Effect.Log_Write_Error .ERROR_SUBSYSTEM_FAILSAFE_GCS .ERROR_CODE_FAILSAFE_RESOLVED]
      else [])
  else
    -- GCS heartbeat has timed out: send a warning every 30 seconds
    let (f1, e1) :=
      if tnow > add32 f.last_gcs_warn_ms 30000 then
        ({ f with last_gcs_warn_ms := tnow },
          [Effect.gcs_send_text .MAV_SEVERITY_WARNING (.heartbeat_lost g.sysid_my_gcs)])
      else
        (f, [])
    -- do nothing if we have already triggered the failsafe action, or if the motors are disarmed
    if f1.gcs = true ∨ armed = false then
      (f1, e1)
    else
      -- update state, log to dataflash
      let f2 := { f1 with gcs := true }
      let e2 := e1 ++
        [Effect.Log_Write_Error .ERROR_SUBSYSTEM_FAILSAFE_GCS .ERROR_CODE_FAILSAFE_OCCURRED]
      -- handle failsafe action
      if g.failsafe_gcs = d.FS_GCS_DISARM then
        (f2, e2 ++ [Effect.init_disarm_motors])
      else if g.failsafe_gcs = d.FS_GCS_HOLD ∧ armed = true then
        (f2, e2 ++ [Effect.set_mode .ALT_HOLD .MODE_REASON_GCS_FAILSAFE])
      else if g.failsafe_gcs = d.FS_GCS_SURFACE ∧ armed = true then
        (f2, e2 ++ [Effect.set_mode .SURFACE .MODE_REASON_GCS_FAILSAFE])
      else
        (f2, e2)

/-- One invocation of the ground-station check from the main loop: the values
the call reads from its environment. `last_heartbeat_ms` is the value the
field `failsafe.last_heartbeat_ms` holds at the call; the heartbeat handler,
outside this file, writes it. -/
structure GcsCall where
  tnow : Nat
  armed : Bool
  g : Parameters
  last_heartbeat_ms : Nat
  deriving DecidableEq, Repr

/-- One entry of a ground-station-check run. -/
structure GcsRecord where
  call : GcsCall
  before : Failsafe
  after : Failsafe
  effects : List Effect
  deriving DecidableEq, Repr

/-- Run `failsafe_gcs_check` over a sequence of calls, threading the `failsafe`
struct; between calls only `last_heartbeat_ms` is written from outside. -/
def gcs_run (d : Defines) (f : Failsafe) : List GcsCall → List GcsRecord
  | [] => []
  | c :: rest =>
    let f0 := { f with last_heartbeat_ms := c.last_heartbeat_ms }
    let r := failsafe_gcs_check d c.g c.armed c.tnow f0
    { call := c, before := f0, after := r.1, effects := r.2 } :: gcs_run d r.1 rest

/-- The failsafe actions the ground-station check can apply. -/
def Effect.is_gcs_action : Effect → Bool
  | .init_disarm_motors => true
  | .set_mode _ _ => true
  | _ => false

/-- The "heartbeat lost" warning, for any system id. -/
def Effect.is_heartbeat_lost : Effect → Bool
  | .gcs_send_text _ (.heartbeat_lost _) => true
  | _ => false

/-! ## Internal pressure monitor -/

/-- Embedding of `Sub::failsafe_internal_pressure_check`. `tnow` is the value of
`AP_HAL::millis()`; `pressure_below_max` is the outcome of the floating-point
comparison `barometer.get_pressure(0) < g.failsafe_pressure_max`. -/
def failsafe_internal_pressure_check (d : Defines) (g : Parameters)
    (pressure_below_max : Bool) (tnow : Nat) (s : Sub) : Sub × List Effect :=
  if g.failsafe_pressure = d.FS_PRESS_DISABLED then
    (s, [])
  else if pressure_below_max then
    ({ s with last_pressure_good_ms := tnow, last_pressure_warn_ms := tnow,
              failsafe := { s.failsafe with internal_pressure := false } }, [])
  else
    -- 2 seconds with no readings below threshold triggers failsafe
    let s1 :=
      if tnow > add32 s.last_pressure_good_ms 2000 then
        { s with failsafe := { s.failsafe with internal_pressure := true } }
      else s
    -- warn every 30 seconds
    if s1.failsafe.internal_pressure = true ∧ tnow > add32 s1.last_pressure_warn_ms 30000 then
      ({ s1 with last_pressure_warn_ms := tnow },
        [Effect.gcs_send_text .MAV_SEVERITY_WARNING .internal_pressure_critical])
    else
      (s1, [])

/-- Poll `failsafe_internal_pressure_check` at every millisecond `0, 1, ..., t`
from state `s0`; `below t` is the outcome of the threshold comparison at time
`t`. The result is the state after the poll at time `t` and the effects of
that poll. -/
def pressure_poll_every_ms (d : Defines) (g : Parameters) (below : Nat → Bool) (s0 : Sub) :
    Nat → Sub × List Effect
  | 0 => failsafe_internal_pressure_check d g (below 0) 0 s0
  | t + 1 =>
    failsafe_internal_pressure_check d g (below (t + 1)) (t + 1)
      (pressure_poll_every_ms d g below s0 t).1

/-! ## Manual-control monitor -/

/-- Embedding of `Sub::failsafe_manual_control_check`. `hal_board_sitl` tells
whether the build has `CONFIG_HAL_BOARD == HAL_BOARD_SITL`, in which case the
body is compiled out; `tnow` is the value of `AP_HAL::millis()`. The
vehicle's `control_mode` is passed along although the source never reads it
in this function. -/
def failsafe_manual_control_check (hal_board_sitl : Bool) (_control_mode : control_mode_t)
    (tnow : Nat) (f : Failsafe) : Failsafe × List Effect :=
  if hal_board_sitl then
    (f, [])
  -- require at least 0.5 Hz update
  else if tnow > add32 f.last_manual_control_ms 2000 then
    if f.manual_control = false then
      ({ f with manual_control := true },
        [Effect.set_neutral_controls, Effect.init_disarm_motors,
         Effect.Log_Write_Error .ERROR_SUBSYSTEM_INPUT .ERROR_CODE_FAILSAFE_OCCURRED,
         Effect.gcs_send_text .MAV_SEVERITY_CRITICAL .lost_manual_control])
    else
      (f, [])
  else
    ({ f with manual_control := false }, [])

/-! ## Internal temperature monitor -/

/-- Embedding of `Sub::failsafe_internal_temperature_check`. `tnow` is the value
of `AP_HAL::millis()`; `temperature_below_max` is the outcome of the
floating-point comparison `barometer.get_temperature(0) < g.failsafe_temperature_max`. -/
def failsafe_internal_temperature_check (d : Defines) (g : Parameters)
    (temperature_below_max : Bool) (tnow : Nat) (s : Sub) : Sub × List Effect :=
  if g.failsafe_temperature = d.FS_TEMP_DISABLED then
    (s, [])
  else if temperature_below_max then
    ({ s with last_temperature_good_ms := tnow, last_temperature_warn_ms := tnow,
              failsafe := { s.failsafe with internal_temperature := false } }, [])
  else
    -- 2 seconds with no readings below threshold triggers failsafe
    let s1 :=
      if tnow > add32 s.last_temperature_good_ms 2000 then
        { s with failsafe := { s.failsafe with internal_temperature := true } }
      else s
    -- warn every 30 seconds
    if s1.failsafe.internal_temperature = true
        ∧ tnow > add32 s1.last_temperature_warn_ms 30000 then
      ({ s1 with last_temperature_warn_ms := tnow },
        [Effect.gcs_send_text .MAV_SEVERITY_WARNING .internal_temperature_critical])
    else
      (s1, [])

/-! ## Leak monitor -/

/-- Embedding of `Sub::set_leak_status`. `tnow` is the value of
`AP_HAL::millis()` and `armed` what `motors.armed()` returns during the call. -/
def set_leak_status (d : Defines) (g : Parameters) (armed : Bool) (tnow : Nat) (status : Bool)
    (f : Failsafe) : Failsafe × List Effect :=
  let e0 := [Effect.notify_leak_detected status]
  -- do nothing if we are dry, or if leak failsafe action is disabled
  if status = false ∨ g.failsafe_leak = d.FS_LEAK_DISABLED then
    ({ f with leak := false },
      e0 ++ (if f.leak = true then
        [Effect.Log_Write_Error .ERROR_SUBSYSTEM_FAILSAFE_LEAK .ERROR_CODE_FAILSAFE_RESOLVED]
      else []))
  else
    -- we have a leak: always send a warning every 20 seconds
    let (f1, e1) :=
      if tnow > add32 f.last_leak_warn_ms 20000 then
        ({ f with last_leak_warn_ms := tnow },
          e0 ++ [Effect.gcs_send_text .MAV_SEVERITY_CRITICAL .leak_detected])
      else
        (f, e0)
    -- do nothing if we have already triggered the failsafe action
    if f1.leak = true then
      (f1, e1)
    else
      let f2 := { f1 with leak := true }
      let e2 := e1 ++
        [Effect.Log_Write_Error .ERROR_SUBSYSTEM_FAILSAFE_LEAK .ERROR_CODE_FAILSAFE_OCCURRED]
      -- handle failsafe action
      if f2.leak = true ∧ g.failsafe_leak = d.FS_LEAK_SURFACE ∧ armed = true then
        (f2, e2 ++ [Effect.set_mode .SURFACE .MODE_REASON_LEAK_FAILSAFE])
      else
        (f2, e2)

/-- One call `set_leak_status(true)` from the main loop: the values it reads. -/
structure LeakCall where
  tnow : Nat
  armed : Bool
  deriving DecidableEq, Repr

/-- One entry of a run of `set_leak_status(true)` calls. -/
structure LeakRecord where
  call : LeakCall
  before : Failsafe
  after : Failsafe
  effects : List Effect
  deriving DecidableEq, Repr

/-- Run `set_leak_status(true)` over a sequence of calls, threading the
`failsafe` struct. -/
def leak_run (d : Defines) (g : Parameters) (f : Failsafe) : List LeakCall → List LeakRecord
  | [] => []
  | c :: rest =>
    let r := set_leak_status d g c.armed c.tnow true f
    { call := c, before := f, after := r.1, effects := r.2 } :: leak_run d g r.1 rest

/-! ## Terrain-data monitor -/

/-- Embedding of `Sub::failsafe_terrain_act`, which only calls collaborators.
`poshold_ok` is what `set_mode(POSHOLD, ...)` returns. The `switch` of the
source has distinct case labels; `FS_TERRAIN_DISARM` shares the `default` arm. -/
def failsafe_terrain_act (d : Defines) (g : Parameters) (poshold_ok : Bool) : List Effect :=
  if g.failsafe_terrain = d.FS_TERRAIN_HOLD then
    [Effect.set_mode .POSHOLD .MODE_REASON_TERRAIN_FAILSAFE]
      ++ (if poshold_ok then []
          else [Effect.set_mode .ALT_HOLD .MODE_REASON_TERRAIN_FAILSAFE])
      ++ [Effect.notify_failsafe_mode_change]
  else if g.failsafe_terrain = d.FS_TERRAIN_SURFACE then
    [Effect.set_mode .SURFACE .MODE_REASON_TERRAIN_FAILSAFE,
     Effect.notify_failsafe_mode_change]
  else
    [Effect.init_disarm_motors]

/-- Embedding of `Sub::failsafe_terrain_on_event`. `rangefinder_enabled` is
`rangefinder_state.enabled`; `recover_ok` is what `auto_terrain_recover_start()`
returns when it is called (the `||` of the source calls it only when the
rangefinder is enabled). -/
def failsafe_terrain_on_event (d : Defines) (g : Parameters)
    (rangefinder_enabled recover_ok poshold_ok : Bool) (f : Failsafe) :
    Failsafe × List Effect :=
  let f1 := { f with terrain := true }
  let e1 := [Effect.Log_Write_Error .ERROR_SUBSYSTEM_FAILSAFE_TERRAIN
    .ERROR_CODE_FAILSAFE_OCCURRED]
  -- if rangefinder is enabled, we can recover from this failsafe
  if rangefinder_enabled = false then
    (f1, e1 ++ failsafe_terrain_act d g poshold_ok)
  else if recover_ok = false then
    (f1, e1 ++ [Effect.auto_terrain_recover_start] ++ failsafe_terrain_act d g poshold_ok)
  else
    (f1, e1 ++ [Effect.auto_terrain_recover_start])

/-- Embedding of `Sub::failsafe_terrain_check`. -/
def failsafe_terrain_check (d : Defines) (g : Parameters) (control_mode : control_mode_t)
    (rangefinder_enabled recover_ok poshold_ok : Bool) (f : Failsafe) :
    Failsafe × List Effect :=
  -- trigger with 5 seconds of failures while in AUTO mode
  let valid_mode : Bool := decide (control_mode = .AUTO ∨ control_mode = .GUIDED)
  let timeout : Bool :=
    decide (sub32 f.terrain_last_failure_ms f.terrain_first_failure_ms
      > d.FS_TERRAIN_TIMEOUT_MS)
  let trigger_event : Bool := valid_mode && timeout
  -- check for clearing of event
  if trigger_event ≠ f.terrain then
    if trigger_event = true then
      let r := failsafe_terrain_on_event d g rangefinder_enabled recover_ok poshold_ok f
      (r.1, Effect.gcs_send_text .MAV_SEVERITY_CRITICAL .failsafe_terrain_triggered :: r.2)
    else
      ({ f with terrain := false },
        [Effect.Log_Write_Error .ERROR_SUBSYSTEM_FAILSAFE_TERRAIN .ERROR_CODE_ERROR_RESOLVED])
  else
    (f, [])

/-- Embedding of `Sub::failsafe_terrain_set_status`; `now` is the value of `millis()`. -/
def failsafe_terrain_set_status (now : Nat) (data_ok : Bool) (f : Failsafe) : Failsafe :=
  -- record time of first and latest failures (i.e. duration of failures)
  if data_ok = false then
    let f1 := { f with terrain_last_failure_ms := now }
    if f1.terrain_first_failure_ms = 0 then
      { f1 with terrain_first_failure_ms := now }
    else f1
  else
    -- failures cleared after 0.1 seconds of persistent successes
    if sub32 now f.terrain_last_failure_ms > 100 then
      { f with terrain_last_failure_ms := 0, terrain_first_failure_ms := 0 }
    else f

/-- One call of `failsafe_terrain_set_status`: the time and the argument. -/
structure TerrainCall where
  now : Nat
  data_ok : Bool
  deriving DecidableEq, Repr

/-- One entry of a run of `failsafe_terrain_set_status` calls. -/
structure TerrainRecord where
  call : TerrainCall
  before : Failsafe
  after : Failsafe
  deriving DecidableEq, Repr

/-- Run `failsafe_terrain_set_status` over a sequence of calls, threading the
`failsafe` struct. -/
def terrain_run (f : Failsafe) : List TerrainCall → List TerrainRecord
  | [] => []
  | c :: rest =>
    { call := c, before := f, after := failsafe_terrain_set_status c.now c.data_ok f }
      :: terrain_run (failsafe_terrain_set_status c.now c.data_ok f) rest

/-! ## Disarm policy -/

/-- Embedding of `Sub::should_disarm_on_failsafe`. `throttle_zero` and
`auto_armed` are the flags `ap.throttle_zero` and `ap.auto_armed`. The
function only returns a value. -/
def should_disarm_on_failsafe (control_mode : control_mode_t) (throttle_zero auto_armed : Bool) :
    Bool :=
  match control_mode with
  | .STABILIZE => throttle_zero
  | .ACRO => throttle_zero
  | .AUTO => !auto_armed
  | _ => false


/-! ## Concrete inputs used to exercise the definitions -/

/-- A concrete assignment of the preprocessor constants. -/
def sample_defines : Defines :=
  { FS_GCS_DISABLED := 0, FS_GCS_DISARM := 2, FS_GCS_HOLD := 3, FS_GCS_SURFACE := 4,
    FS_GCS_TIMEOUT_MS := 2500,
    FS_PRESS_DISABLED := 0, FS_TEMP_DISABLED := 0,
    FS_LEAK_DISABLED := 0, FS_LEAK_SURFACE := 2,
    FS_TERRAIN_HOLD := 0, FS_TERRAIN_SURFACE := 1, FS_TERRAIN_DISARM := 2,
    FS_TERRAIN_TIMEOUT_MS := 5000 }

/-- Parameters with the ground-station action set to disarm and the pressure
monitor enabled, relative to `sample_defines`. -/
def sample_parameters : Parameters :=
  { failsafe_gcs := 2, failsafe_pressure := 1 }

/-- A watchdog that is enabled, not in failsafe, with last-seen counter 10 and
last-seen timestamp 0. -/
def stalled_watchdog : WatchdogState :=
  { failsafe_enabled := true, failsafe_last_mainLoop_count := 10,
    failsafe_last_timestamp := 0, in_failsafe := false }

/-- Three calls of the ground-station check, with the heartbeat first seen at
1 ms: the armed vehicle times out at 2501 ms, a heartbeat arrives at 2600 ms,
and the link has timed out again at 6000 ms. -/
def sample_gcs_calls : List GcsCall :=
  [⟨2501, true, sample_parameters, 1⟩, ⟨2600, false, sample_parameters, 2600⟩,
   ⟨6000, true, sample_parameters, 2600⟩]

/-- Record of the call at 2501 ms of `sample_gcs_calls`: failsafe triggered, disarm applied. -/
def sample_gcs_first : GcsRecord :=
  { call := ⟨2501, true, sample_parameters, 1⟩,
    before := { last_heartbeat_ms := 1 },
    after := { last_heartbeat_ms := 1, gcs := true },
    effects :=
      [Effect.Log_Write_Error .ERROR_SUBSYSTEM_FAILSAFE_GCS .ERROR_CODE_FAILSAFE_OCCURRED,
       Effect.init_disarm_motors] }

/-- Record of the call at 2600 ms of `sample_gcs_calls`: failsafe resolved. -/
def sample_gcs_second : GcsRecord :=
  { call := ⟨2600, false, sample_parameters, 2600⟩,
    before := { last_heartbeat_ms := 2600, gcs := true },
    after := { last_heartbeat_ms := 2600, gcs := false },
    effects :=
      [Effect.Log_Write_Error .ERROR_SUBSYSTEM_FAILSAFE_GCS .ERROR_CODE_FAILSAFE_RESOLVED] }

/-- Record of the call at 6000 ms of `sample_gcs_calls`: failsafe triggered again. -/
def sample_gcs_third : GcsRecord :=
  { call := ⟨6000, true, sample_parameters, 2600⟩,
    before := { last_heartbeat_ms := 2600 },
    after := { last_heartbeat_ms := 2600, gcs := true },
    effects :=
      [Effect.Log_Write_Error .ERROR_SUBSYSTEM_FAILSAFE_GCS .ERROR_CODE_FAILSAFE_OCCURRED,
       Effect.init_disarm_motors] }

/-- A watchdog that is enabled and in failsafe, with last-seen counter 10 and
last-seen timestamp 0. -/
def sample_failsafe_watchdog : WatchdogState :=
  { failsafe_enabled := true, failsafe_last_mainLoop_count := 10,
    failsafe_last_timestamp := 0, in_failsafe := true }

/-- Ticks at 1.5 s, 2.0 s and 2.6 s with the counter still 10 and the motors armed. -/
def sample_failsafe_ticks : List Tick :=
  [⟨1500000, 10, true⟩, ⟨2000000, 10, true⟩, ⟨2600000, 10, true⟩]

/-! # Theorems -/

/-! ## Watchdog: single-tick facts -/

theorem failsafe_check_changed (c : Nat) (armed : Bool) (tnow : Nat) (w : WatchdogState)
    (h : c ≠ w.failsafe_last_mainLoop_count) :
    failsafe_check c armed tnow w =
      ({ w with failsafe_last_mainLoop_count := c, failsafe_last_timestamp := tnow,
                in_failsafe := false },
       if w.in_failsafe then
         [Effect.Log_Write_Error .ERROR_SUBSYSTEM_CPU .ERROR_CODE_FAILSAFE_RESOLVED]
       else []) := by
  unfold failsafe_check
  cases hf : w.in_failsafe <;> simp [h, hf]

/-- A tick with an unchanged counter, outside failsafe and within the 2 s
timeout, does nothing. -/
theorem failsafe_check_quiet (c : Nat) (armed : Bool) (tnow : Nat) (w : WatchdogState)
    (hc : c = w.failsafe_last_mainLoop_count) (hf : w.in_failsafe = false)
    (ht : sub32 tnow w.failsafe_last_timestamp ≤ 2000000) :
    failsafe_check c armed tnow w = (w, []) := by
  unfold failsafe_check
  simp [hc, hf, Nat.not_lt.mpr ht]

/-- A tick with an unchanged counter on a disabled watchdog does nothing. -/
theorem failsafe_check_disabled (c : Nat) (armed : Bool) (tnow : Nat) (w : WatchdogState)
    (hc : c = w.failsafe_last_mainLoop_count) (hd : w.failsafe_enabled = false) :
    failsafe_check c armed tnow w = (w, []) := by
  unfold failsafe_check
  simp [hc, hd]

/-- The tick that enters failsafe: both the reduce-output block and the disarm
block run, because the timestamp is not refreshed between them. -/
theorem failsafe_check_entry (c : Nat) (armed : Bool) (tnow : Nat) (w : WatchdogState)
    (hc : c = w.failsafe_last_mainLoop_count) (he : w.failsafe_enabled = true)
    (hf : w.in_failsafe = false)
    (ht : sub32 tnow w.failsafe_last_timestamp > 2000000) :
    failsafe_check c armed tnow w =
      ({ w with in_failsafe := true, failsafe_last_timestamp := tnow },
       (if armed then [Effect.motors_output_min] else [])
         ++ [Effect.Log_Write_Error .ERROR_SUBSYSTEM_CPU .ERROR_CODE_FAILSAFE_OCCURRED]
         ++ (if armed then [Effect.motors_armed_false, Effect.motors_output] else [])) := by
  have h1 : sub32 tnow w.failsafe_last_timestamp > 1000000 := by omega
  unfold failsafe_check
  simp [hc, he, hf, ht, h1]

/-- A tick with an unchanged counter while already in failsafe. -/
theorem failsafe_check_in_failsafe (c : Nat) (armed : Bool) (tnow : Nat) (w : WatchdogState)
    (hc : c = w.failsafe_last_mainLoop_count) (hf : w.in_failsafe = true) :
    failsafe_check c armed tnow w =
      if w.failsafe_enabled = true ∧ sub32 tnow w.failsafe_last_timestamp > 1000000 then
        ({ w with failsafe_last_timestamp := tnow },
         if armed then [Effect.motors_armed_false, Effect.motors_output] else [])
      else (w, []) := by
  unfold failsafe_check
  by_cases h : w.failsafe_enabled = true ∧ sub32 tnow w.failsafe_last_timestamp > 1000000
  · simp [hc, hf, h]
  · simp only [if_neg h]
    simp [hc, hf]
    intro a b
    exact absurd ⟨a, b⟩ h

/-- The counter stored after a tick is the counter the tick read. -/
theorem failsafe_check_count (c : Nat) (armed : Bool) (tnow : Nat) (w : WatchdogState) :
    (failsafe_check c armed tnow w).1.failsafe_last_mainLoop_count = c := by
  by_cases hc : c = w.failsafe_last_mainLoop_count
  · cases hf : w.in_failsafe
    · by_cases ht : sub32 tnow w.failsafe_last_timestamp ≤ 2000000
      · rw [failsafe_check_quiet c armed tnow w hc hf ht]; exact hc.symm
      · cases he : w.failsafe_enabled
        · rw [failsafe_check_disabled c armed tnow w hc he]; exact hc.symm
        · rw [failsafe_check_entry c armed tnow w hc he hf (by omega)]; exact hc.symm
    · rw [failsafe_check_in_failsafe c armed tnow w hc hf]
      split <;> exact hc.symm
  · rw [failsafe_check_changed c armed tnow w hc]

/-- The timestamp stored after a tick is the old one or the current time. -/
theorem failsafe_check_timestamp (c : Nat) (armed : Bool) (tnow : Nat) (w : WatchdogState) :
    (failsafe_check c armed tnow w).1.failsafe_last_timestamp = w.failsafe_last_timestamp ∨
    (failsafe_check c armed tnow w).1.failsafe_last_timestamp = tnow := by
  by_cases hc : c = w.failsafe_last_mainLoop_count
  · cases hf : w.in_failsafe
    · by_cases ht : sub32 tnow w.failsafe_last_timestamp ≤ 2000000
      · rw [failsafe_check_quiet c armed tnow w hc hf ht]; exact Or.inl rfl
      · cases he : w.failsafe_enabled
        · rw [failsafe_check_disabled c armed tnow w hc he]; exact Or.inl rfl
        · rw [failsafe_check_entry c armed tnow w hc he hf (by omega)]; exact Or.inr rfl
    · rw [failsafe_check_in_failsafe c armed tnow w hc hf]
      split
      · exact Or.inr rfl
      · exact Or.inl rfl
  · rw [failsafe_check_changed c armed tnow w hc]; exact Or.inr rfl

/-- A tick requests a disarm only from the disarm block: the counter is
unchanged, more than 1 s has elapsed since the stored timestamp, the timestamp
is refreshed and the output push accompanies the disarm. -/
theorem failsafe_check_disarm (c : Nat) (armed : Bool) (tnow : Nat) (w : WatchdogState)
    (h : Effect.motors_armed_false ∈ (failsafe_check c armed tnow w).2) :
    c = w.failsafe_last_mainLoop_count ∧
    sub32 tnow w.failsafe_last_timestamp > 1000000 ∧
    (failsafe_check c armed tnow w).1.failsafe_last_timestamp = tnow ∧
    Effect.motors_output ∈ (failsafe_check c armed tnow w).2 := by
  by_cases hc : c = w.failsafe_last_mainLoop_count
  · cases hf : w.in_failsafe
    · by_cases ht : sub32 tnow w.failsafe_last_timestamp ≤ 2000000
      · rw [failsafe_check_quiet c armed tnow w hc hf ht] at h; simp at h
      · cases he : w.failsafe_enabled
        · rw [failsafe_check_disabled c armed tnow w hc he] at h; simp at h
        · rw [failsafe_check_entry c armed tnow w hc he hf (by omega)] at h ⊢
          cases armed <;> simp at h ⊢
          exact ⟨hc, by omega⟩
    · rw [failsafe_check_in_failsafe c armed tnow w hc hf] at h ⊢
      split at h
      · rename_i hb
        rw [if_pos hb]
        cases armed <;> simp at h ⊢
        exact ⟨hc, hb.2⟩
      · simp at h
  · rw [failsafe_check_changed c armed tnow w hc] at h
    cases hf : w.in_failsafe <;> simp [hf] at h

/-- Within the 2 s timeout no tick enters failsafe, reduces the output or logs
an occurrence. -/
theorem failsafe_check_no_entry (c : Nat) (armed : Bool) (tnow : Nat) (w : WatchdogState)
    (ht : sub32 tnow w.failsafe_last_timestamp ≤ 2000000) :
    (w.in_failsafe = false → (failsafe_check c armed tnow w).1.in_failsafe = false) ∧
    Effect.motors_output_min ∉ (failsafe_check c armed tnow w).2 ∧
    Effect.Log_Write_Error .ERROR_SUBSYSTEM_CPU .ERROR_CODE_FAILSAFE_OCCURRED
      ∉ (failsafe_check c armed tnow w).2 := by
  by_cases hc : c = w.failsafe_last_mainLoop_count
  · cases hf : w.in_failsafe
    · rw [failsafe_check_quiet c armed tnow w hc hf ht]; simp [hf]
    · rw [failsafe_check_in_failsafe c armed tnow w hc hf]
      split <;> cases armed <;> simp
  · rw [failsafe_check_changed c armed tnow w hc]
    cases hf : w.in_failsafe <;> simp

/-! ## Watchdog: runs -/

theorem watchdog_run_cons (w : WatchdogState) (tk : Tick) (rest : List Tick) :
    watchdog_run w (tk :: rest) =
      { tick := tk, before := w,
        after := (failsafe_check tk.mainLoop_count tk.armed tk.tnow w).1,
        effects := (failsafe_check tk.mainLoop_count tk.armed tk.tnow w).2 }
      :: watchdog_run (failsafe_check tk.mainLoop_count tk.armed tk.tnow w).1 rest := rfl

theorem watchdog_effects_cons (w : WatchdogState) (tk : Tick) (rest : List Tick) :
    watchdog_effects w (tk :: rest) =
      (failsafe_check tk.mainLoop_count tk.armed tk.tnow w).2
        ++ watchdog_effects (failsafe_check tk.mainLoop_count tk.armed tk.tnow w).1 rest := by
  simp [watchdog_effects, watchdog_run]

/-- Ticks before the timeout, outside failsafe and with the counter unchanged,
contribute nothing to the effect trace and leave the state as it is. -/
theorem watchdog_effects_quiet_prefix (pre rest : List Tick) (w : WatchdogState)
    (hf : w.in_failsafe = false)
    (hpre : ∀ t ∈ pre, t.mainLoop_count = w.failsafe_last_mainLoop_count ∧
      sub32 t.tnow w.failsafe_last_timestamp ≤ 2000000) :
    watchdog_effects w (pre ++ rest) = watchdog_effects w rest := by
  induction pre with
  | nil => rfl
  | cons tk pre ih =>
    have h := hpre tk (List.mem_cons_self _ _)
    rw [List.cons_append, watchdog_effects_cons,
      failsafe_check_quiet tk.mainLoop_count tk.armed tk.tnow w h.1 hf h.2]
    simpa using ih (fun t ht => hpre t (List.mem_cons_of_mem _ ht))

/-- Once in failsafe, and while the counter stays unchanged, the output is
never reduced again. -/
theorem watchdog_effects_in_failsafe (ticks : List Tick) (w : WatchdogState)
    (hf : w.in_failsafe = true)
    (hc : ∀ t ∈ ticks, t.mainLoop_count = w.failsafe_last_mainLoop_count) :
    Effect.motors_output_min ∉ watchdog_effects w ticks := by
  induction ticks generalizing w with
  | nil => simp [watchdog_effects, watchdog_run]
  | cons tk rest ih =>
    have h := hc tk (List.mem_cons_self _ _)
    rw [watchdog_effects_cons, failsafe_check_in_failsafe tk.mainLoop_count tk.armed tk.tnow w h hf]
    split
    · simp only [List.mem_append, not_or]
      refine ⟨by cases tk.armed <;> simp, ih _ hf ?_⟩
      intro t ht
      exact hc t (List.mem_cons_of_mem _ ht)
    · simp only [List.mem_append, not_or]
      refine ⟨by simp, ih _ hf ?_⟩
      intro t ht
      exact hc t (List.mem_cons_of_mem _ ht)

/-- After a tick that refreshed the timestamp to `lo`, every later disarm is
more than 1 s after `lo`. Times are non-decreasing on the 32-bit clock as
measured from `base`. -/
theorem watchdog_run_disarm_after (ticks : List Tick) (w : WatchdogState) (base lo : Nat)
    (hc : ∀ t ∈ ticks, t.mainLoop_count = w.failsafe_last_mainLoop_count)
    (hlo : sub32 lo base ≤ sub32 w.failsafe_last_timestamp base)
    (hts : ∀ t ∈ ticks, sub32 w.failsafe_last_timestamp base ≤ sub32 t.tnow base)
    (hmono : List.Pairwise (fun a b : Tick => sub32 a.tnow base ≤ sub32 b.tnow base) ticks) :
    ∀ r ∈ watchdog_run w ticks, Effect.motors_armed_false ∈ r.effects →
      sub32 r.tick.tnow lo > 1000000 := by
  induction ticks generalizing w with
  | nil => intro r hr; simp [watchdog_run] at hr
  | cons tk rest ih =>
    intro r hr hd
    rw [watchdog_run_cons, List.mem_cons] at hr
    have htk := hts tk (List.mem_cons_self _ _)
    rw [List.pairwise_cons] at hmono
    rcases hr with hr | hr
    · subst hr
      have h := (failsafe_check_disarm _ _ _ _ hd).2.1
      simp only [sub32, U32] at h hlo htk ⊢
      omega
    · refine ih _ ?_ ?_ ?_ hmono.2 r hr hd
      · intro t ht
        rw [failsafe_check_count]
        exact (hc t (List.mem_cons_of_mem _ ht)).trans (hc tk (List.mem_cons_self _ _)).symm
      · rcases failsafe_check_timestamp tk.mainLoop_count tk.armed tk.tnow w with h | h
        · rw [h]; exact hlo
        · rw [h]; exact hlo.trans htk
      · intro t ht
        rcases failsafe_check_timestamp tk.mainLoop_count tk.armed tk.tnow w with h | h
        · rw [h]; exact hts t (List.mem_cons_of_mem _ ht)
        · rw [h]; exact hmono.1 t ht

/-- After `failsafe_enable` at `t0`, ticks within 2 s of `t0` (non-decreasing on
the 32-bit clock as measured from `t0`) never enter failsafe. -/
theorem watchdog_run_no_entry (ticks : List Tick) (w : WatchdogState) (t0 : Nat)
    (hts : ∀ t ∈ ticks, sub32 w.failsafe_last_timestamp t0 ≤ sub32 t.tnow t0)
    (hlim : ∀ t ∈ ticks, sub32 t.tnow t0 ≤ 2000000)
    (hmono : List.Pairwise (fun a b : Tick => sub32 a.tnow t0 ≤ sub32 b.tnow t0) ticks) :
    ∀ r ∈ watchdog_run w ticks,
      (r.before.in_failsafe = false → r.after.in_failsafe = false) ∧
      Effect.motors_output_min ∉ r.effects ∧
      Effect.Log_Write_Error .ERROR_SUBSYSTEM_CPU .ERROR_CODE_FAILSAFE_OCCURRED ∉ r.effects := by
  induction ticks generalizing w with
  | nil => intro r hr; simp [watchdog_run] at hr
  | cons tk rest ih =>
    intro r hr
    rw [watchdog_run_cons, List.mem_cons] at hr
    have htk := hts tk (List.mem_cons_self _ _)
    have hl := hlim tk (List.mem_cons_self _ _)
    rw [List.pairwise_cons] at hmono
    rcases hr with hr | hr
    · subst hr
      refine failsafe_check_no_entry _ _ _ _ ?_
      simp only [sub32, U32] at htk hl ⊢
      omega
    · refine ih _ ?_ (fun t ht => hlim t (List.mem_cons_of_mem _ ht)) hmono.2 r hr
      intro t ht
      rcases failsafe_check_timestamp tk.mainLoop_count tk.armed tk.tnow w with h | h
      · rw [h]; exact hts t (List.mem_cons_of_mem _ ht)
      · rw [h]; exact hmono.1 t ht

/-! ## Watchdog: claims -/

/-- C1 (the code departs from the claim). On the tick that enters failsafe
(enabled, counter 10 unchanged, 2,000,001 us since the last-seen timestamp,
motors armed) `failsafe_check` requests the reduced output and the "occurred"
log and, on that same tick, also the full disarm `motors.armed(false)` and the
output push: the 1 s test of the disarm block reads the timestamp that the
entry block did not refresh. -/
theorem C1_failsafe_check_disarms_on_entry_tick :
    failsafe_check 10 true 2000001
      { failsafe_enabled := true, failsafe_last_mainLoop_count := 10,
        failsafe_last_timestamp := 0, in_failsafe := false }
    = ({ failsafe_enabled := true, failsafe_last_mainLoop_count := 10,
         failsafe_last_timestamp := 2000001, in_failsafe := true },
       [Effect.motors_output_min,
        Effect.Log_Write_Error .ERROR_SUBSYSTEM_CPU .ERROR_CODE_FAILSAFE_OCCURRED,
        Effect.motors_armed_false, Effect.motors_output]) := by
  decide

/-- C2. From an enabled watchdog that is not in failsafe, over any sequence of
ticks on which the counter never changes (whatever their times, so in
particular non-decreasing ones), if the motors are armed on the first tick
`tk` that exceeds the 2,000,000 us timeout, then `motors.output_min()` occurs
exactly once in the whole effect trace, and nothing (so no disarm) precedes it. -/
theorem C2_output_min_exactly_once (w : WatchdogState) (pre post : List Tick) (tk : Tick)
    (he : w.failsafe_enabled = true) (hf : w.in_failsafe = false)
    (hcount : ∀ t ∈ pre ++ tk :: post, t.mainLoop_count = w.failsafe_last_mainLoop_count)
    (hpre : ∀ t ∈ pre, sub32 t.tnow w.failsafe_last_timestamp ≤ 2000000)
    (htk : sub32 tk.tnow w.failsafe_last_timestamp > 2000000)
    (harmed : tk.armed = true) :
    (watchdog_effects w (pre ++ tk :: post)).count Effect.motors_output_min = 1 ∧
    ∃ l1 l2, watchdog_effects w (pre ++ tk :: post) = l1 ++ Effect.motors_output_min :: l2 ∧
      Effect.motors_armed_false ∉ l1 ∧ Effect.motors_output_min ∉ l1 ∧
      Effect.motors_output_min ∉ l2 := by
  have hq : watchdog_effects w (pre ++ tk :: post) = watchdog_effects w (tk :: post) :=
    watchdog_effects_quiet_prefix pre (tk :: post) w hf (fun t ht =>
      ⟨hcount t (List.mem_append_left _ ht), hpre t ht⟩)
  have hctk := hcount tk (by simp)
  have hpost : Effect.motors_output_min ∉
      watchdog_effects { w with in_failsafe := true, failsafe_last_timestamp := tk.tnow } post :=
    watchdog_effects_in_failsafe post _ rfl (fun t ht => hcount t (by simp [ht]))
  rw [hq, watchdog_effects_cons, failsafe_check_entry _ _ _ _ hctk he hf htk, harmed]
  simp only [if_true, List.singleton_append, List.cons_append, List.nil_append]
  refine ⟨?_, [], _, rfl, by simp, by simp, ?_⟩
  · simp [List.count_cons, List.count_eq_zero.mpr hpost]
  · simpa using hpost

/-- Witness for C2: the counter stalled at 10, a tick at 1 s, then the first
tick past the timeout with the motors armed, then one more tick. -/
theorem C2_output_min_exactly_once_witness :
    (watchdog_effects stalled_watchdog
        ([⟨1000000, 10, true⟩] ++ ⟨2000001, 10, true⟩ :: [⟨3100000, 10, true⟩])).count
      Effect.motors_output_min = 1 ∧
    watchdog_effects stalled_watchdog
        ([⟨1000000, 10, true⟩] ++ ⟨2000001, 10, true⟩ :: [⟨3100000, 10, true⟩])
      = [Effect.motors_output_min,
         Effect.Log_Write_Error .ERROR_SUBSYSTEM_CPU .ERROR_CODE_FAILSAFE_OCCURRED,
         Effect.motors_armed_false, Effect.motors_output,
         Effect.motors_armed_false, Effect.motors_output] :=
  ⟨(C2_output_min_exactly_once stalled_watchdog
      [⟨1000000, 10, true⟩] [⟨3100000, 10, true⟩] ⟨2000001, 10, true⟩
      rfl rfl (by decide) (by decide) (by decide) rfl).1,
   by decide⟩

/-- C3. Over any run of ticks on which the counter stays at the last-seen
value and whose times are non-decreasing on the 32-bit clock (as measured
from `base`; with `base = 0` this is plain `≤` on `uint32_t` times): every
tick on which the disarm block runs (enabled, in failsafe, more than
1,000,000 us since the last-seen timestamp) refreshes that timestamp to the
current time and requests the disarm exactly when the motors are armed;
every tick that requests the full disarm also requests the output push and
leaves the last-seen timestamp equal to its own time; and for any two ticks
of the run, if the earlier one requests a disarm then the later one requests
a disarm only when the wrap-around difference of their times exceeds
1,000,000 us, so a tick at most 1,000,000 us after a disarm tick requests none. -/
theorem C3_disarm_rate_limit (w : WatchdogState) (ticks : List Tick) (base : Nat)
    (hcount : ∀ t ∈ ticks, t.mainLoop_count = w.failsafe_last_mainLoop_count)
    (hmono : List.Pairwise (fun a b : Tick => sub32 a.tnow base ≤ sub32 b.tnow base) ticks) :
    (∀ r ∈ watchdog_run w ticks,
      r.before.failsafe_enabled = true → r.before.in_failsafe = true →
      sub32 r.tick.tnow r.before.failsafe_last_timestamp > 1000000 →
      r.after.failsafe_last_timestamp = r.tick.tnow ∧
      (Effect.motors_armed_false ∈ r.effects ↔ r.tick.armed = true)) ∧
    (∀ r ∈ watchdog_run w ticks, Effect.motors_armed_false ∈ r.effects →
      r.after.failsafe_last_timestamp = r.tick.tnow ∧ Effect.motors_output ∈ r.effects) ∧
    List.Pairwise (fun a b : TickRecord =>
        Effect.motors_armed_false ∈ a.effects →
          (Effect.motors_armed_false ∈ b.effects → sub32 b.tick.tnow a.tick.tnow > 1000000) ∧
          (sub32 b.tick.tnow a.tick.tnow ≤ 1000000 → Effect.motors_armed_false ∉ b.effects))
      (watchdog_run w ticks) := by
  induction ticks generalizing w with
  | nil => simp [watchdog_run]
  | cons tk rest ih =>
    rw [List.pairwise_cons] at hmono
    have hrest : ∀ t ∈ rest, t.mainLoop_count =
        (failsafe_check tk.mainLoop_count tk.armed tk.tnow w).1.failsafe_last_mainLoop_count := by
      intro t ht
      rw [failsafe_check_count]
      exact (hcount t (List.mem_cons_of_mem _ ht)).trans (hcount tk (List.mem_cons_self _ _)).symm
    have ih' := ih _ hrest hmono.2
    rw [watchdog_run_cons]
    refine ⟨?_, ?_, ?_⟩
    · intro r hr he hf ht
      rw [List.mem_cons] at hr
      rcases hr with hr | hr
      · subst hr
        simp only at he hf ht ⊢
        rw [failsafe_check_in_failsafe _ _ _ _ (hcount tk (List.mem_cons_self _ _)) hf,
          if_pos ⟨he, ht⟩]
        cases tk.armed <;> simp
      · exact ih'.1 r hr he hf ht
    · intro r hr hd
      rw [List.mem_cons] at hr
      rcases hr with hr | hr
      · subst hr
        exact ⟨(failsafe_check_disarm _ _ _ _ hd).2.2.1, (failsafe_check_disarm _ _ _ _ hd).2.2.2⟩
      · exact ih'.2.1 r hr hd
    · rw [List.pairwise_cons]
      refine ⟨?_, ih'.2.2⟩
      intro b hb ha
      have hts := (failsafe_check_disarm _ _ _ _ ha).2.2.1
      have key : Effect.motors_armed_false ∈ b.effects → sub32 b.tick.tnow tk.tnow > 1000000 := by
        intro hbd
        refine watchdog_run_disarm_after rest _ base tk.tnow hrest ?_ ?_ hmono.2 b hb hbd
        · rw [hts]
        · intro t ht
          rw [hts]
          exact hmono.1 t ht
      refine ⟨key, ?_⟩
      intro hle hbd
      exact absurd (key hbd) (Nat.not_lt.mpr hle)

/-- Witness for C3: in failsafe with the counter stalled at 10, ticks at
1.5 s, 2.0 s and 2.6 s after the last-seen timestamp: the first and the third
request the disarm, the second (0.5 s after the first) does not. -/
theorem C3_disarm_rate_limit_witness :
    (watchdog_run sample_failsafe_watchdog sample_failsafe_ticks).map (fun r => r.effects)
      = [[Effect.motors_armed_false, Effect.motors_output], [],
         [Effect.motors_armed_false, Effect.motors_output]] ∧
    List.Pairwise (fun a b : TickRecord =>
        Effect.motors_armed_false ∈ a.effects →
          (Effect.motors_armed_false ∈ b.effects → sub32 b.tick.tnow a.tick.tnow > 1000000) ∧
          (sub32 b.tick.tnow a.tick.tnow ≤ 1000000 → Effect.motors_armed_false ∉ b.effects))
      (watchdog_run sample_failsafe_watchdog sample_failsafe_ticks) :=
  ⟨by decide,
   (C3_disarm_rate_limit sample_failsafe_watchdog sample_failsafe_ticks 0
      (by decide) (by decide)).2.2⟩

/-- C4. If the main-loop counter differs from the last seen counter,
`failsafe_check` stores the new counter and the current time, leaves
`in_failsafe` false and `failsafe_enabled` unchanged, and its whole effect
list is the single "resolved" log when it was in failsafe before the tick and
empty otherwise: no `output_min`, no disarm, no output push. -/
theorem C4_watchdog_recovery (c : Nat) (armed : Bool) (tnow : Nat) (w : WatchdogState)
    (h : c ≠ w.failsafe_last_mainLoop_count) :
    (failsafe_check c armed tnow w).1.failsafe_last_mainLoop_count = c ∧
    (failsafe_check c armed tnow w).1.failsafe_last_timestamp = tnow ∧
    (failsafe_check c armed tnow w).1.in_failsafe = false ∧
    (failsafe_check c armed tnow w).1.failsafe_enabled = w.failsafe_enabled ∧
    (failsafe_check c armed tnow w).2 =
      (if w.in_failsafe = true then
        [Effect.Log_Write_Error .ERROR_SUBSYSTEM_CPU .ERROR_CODE_FAILSAFE_RESOLVED]
       else []) ∧
    Effect.motors_output_min ∉ (failsafe_check c armed tnow w).2 ∧
    Effect.motors_armed_false ∉ (failsafe_check c armed tnow w).2 ∧
    Effect.motors_output ∉ (failsafe_check c armed tnow w).2 := by
  rw [failsafe_check_changed c armed tnow w h]
  cases hf : w.in_failsafe <;> simp

/-- Witness for C4: in failsafe with last-seen counter 10, the counter reads 11. -/
theorem C4_watchdog_recovery_witness :
    (11 : Nat) ≠ 10 ∧
    (failsafe_check 11 true 5000000
      { failsafe_enabled := true, failsafe_last_mainLoop_count := 10,
        failsafe_last_timestamp := 0, in_failsafe := true }).2 =
      [Effect.Log_Write_Error .ERROR_SUBSYSTEM_CPU .ERROR_CODE_FAILSAFE_RESOLVED] :=
  ⟨by decide,
   (C4_watchdog_recovery 11 true 5000000
      { failsafe_enabled := true, failsafe_last_mainLoop_count := 10,
        failsafe_last_timestamp := 0, in_failsafe := true } (by decide)).2.2.2.2.1⟩

/-- C5. (1) After `failsafe_disable`, a tick with an unchanged counter returns
the state unchanged and requests nothing, whatever the time, the armed state
and `in_failsafe`. (2) `failsafe_enable` at `t0` sets the enabled flag and the
last-seen timestamp to `t0` and changes nothing else. (3) After
`failsafe_enable` at `t0`, over ticks within 2,000,000 us of `t0` (times
non-decreasing on the 32-bit clock as measured from `t0`, any counters), no
tick takes `in_failsafe` from false to true, reduces the output or logs an
occurrence. -/
theorem C5_disabled_inert_and_enable_grace (w : WatchdogState) (armed : Bool) (tnow t0 : Nat)
    (ticks : List Tick)
    (hlim : ∀ t ∈ ticks, sub32 t.tnow t0 ≤ 2000000)
    (hmono : List.Pairwise (fun a b : Tick => sub32 a.tnow t0 ≤ sub32 b.tnow t0) ticks) :
    failsafe_check w.failsafe_last_mainLoop_count armed tnow (failsafe_disable w)
      = (failsafe_disable w, []) ∧
    failsafe_enable t0 w = { w with failsafe_enabled := true, failsafe_last_timestamp := t0 } ∧
    ∀ r ∈ watchdog_run (failsafe_enable t0 w) ticks,
      (r.before.in_failsafe = false → r.after.in_failsafe = false) ∧
      Effect.motors_output_min ∉ r.effects ∧
      Effect.Log_Write_Error .ERROR_SUBSYSTEM_CPU .ERROR_CODE_FAILSAFE_OCCURRED ∉ r.effects := by
  refine ⟨failsafe_check_disabled _ _ _ _ rfl rfl, rfl, ?_⟩
  refine watchdog_run_no_entry ticks _ t0 ?_ hlim hmono
  intro t _
  have h0 : sub32 t0 t0 = 0 := by
    simp only [sub32, U32]
    omega
  show sub32 t0 t0 ≤ sub32 t.tnow t0
  rw [h0]
  exact Nat.zero_le _

/-- Witness for C5: a watchdog stalled for a long time is enabled at
`t0 = 4294000000`; ticks follow up to exactly 2,000,000 us later, across the
wrap of the 32-bit clock. -/
theorem C5_disabled_inert_and_enable_grace_witness :
    failsafe_check 10 true 9000000
        (failsafe_disable { failsafe_enabled := true, failsafe_last_mainLoop_count := 10,
                            failsafe_last_timestamp := 0, in_failsafe := true })
      = (failsafe_disable { failsafe_enabled := true, failsafe_last_mainLoop_count := 10,
                            failsafe_last_timestamp := 0, in_failsafe := true }, []) ∧
    ∀ r ∈ watchdog_run
        (failsafe_enable 4294000000
          { failsafe_enabled := true, failsafe_last_mainLoop_count := 10,
            failsafe_last_timestamp := 0, in_failsafe := true })
        [⟨4294000001, 11, true⟩, ⟨4294500000, 11, true⟩, ⟨1032704, 11, true⟩],
      (r.before.in_failsafe = false → r.after.in_failsafe = false) ∧
      Effect.motors_output_min ∉ r.effects ∧
      Effect.Log_Write_Error .ERROR_SUBSYSTEM_CPU .ERROR_CODE_FAILSAFE_OCCURRED ∉ r.effects :=
  have h := C5_disabled_inert_and_enable_grace
    { failsafe_enabled := true, failsafe_last_mainLoop_count := 10,
      failsafe_last_timestamp := 0, in_failsafe := true } true 9000000 4294000000
    [⟨4294000001, 11, true⟩, ⟨4294500000, 11, true⟩, ⟨1032704, 11, true⟩]
    (by decide) (by decide)
  ⟨h.1, h.2.2⟩

/-! ## Ground-station link monitor: single-call facts -/

/-- Before first contact, or with the monitor disabled, the check does nothing. -/
theorem failsafe_gcs_check_skip (d : Defines) (g : Parameters) (armed : Bool) (tnow : Nat)
    (f : Failsafe)
    (h0 : f.last_heartbeat_ms = 0 ∨ (g.failsafe_gcs = 0 ∧ g.failsafe_gcs = d.FS_GCS_DISABLED)) :
    failsafe_gcs_check d g armed tnow f = (f, []) := by
  unfold failsafe_gcs_check
  rw [if_pos h0]

/-- With a recent heartbeat the check clears the flag and logs "resolved" if it was set. -/
theorem failsafe_gcs_check_recent (d : Defines) (g : Parameters) (armed : Bool) (tnow : Nat)
    (f : Failsafe)
    (h0 : ¬ (f.last_heartbeat_ms = 0 ∨ (g.failsafe_gcs = 0 ∧ g.failsafe_gcs = d.FS_GCS_DISABLED)))
    (ht : tnow < add32 f.last_heartbeat_ms d.FS_GCS_TIMEOUT_MS) :
    failsafe_gcs_check d g armed tnow f =
      ({ f with gcs := false },
       if f.gcs = true then
         [Effect.Log_Write_Error .ERROR_SUBSYSTEM_FAILSAFE_GCS .ERROR_CODE_FAILSAFE_RESOLVED]
       else []) := by
  unfold failsafe_gcs_check
  rw [if_neg h0, if_pos ht]

/-- With the heartbeat timed out and the flag already set, or the motors
disarmed, the check only sends the rate-limited warning. -/
theorem failsafe_gcs_check_hold (d : Defines) (g : Parameters) (armed : Bool) (tnow : Nat)
    (f : Failsafe)
    (h0 : ¬ (f.last_heartbeat_ms = 0 ∨ (g.failsafe_gcs = 0 ∧ g.failsafe_gcs = d.FS_GCS_DISABLED)))
    (ht : ¬ tnow < add32 f.last_heartbeat_ms d.FS_GCS_TIMEOUT_MS)
    (hg : f.gcs = true ∨ armed = false) :
    failsafe_gcs_check d g armed tnow f =
      ({ f with last_gcs_warn_ms :=
                  if tnow > add32 f.last_gcs_warn_ms 30000 then tnow else f.last_gcs_warn_ms },
       if tnow > add32 f.last_gcs_warn_ms 30000 then
         [Effect.gcs_send_text .MAV_SEVERITY_WARNING (.heartbeat_lost g.sysid_my_gcs)]
       else []) := by
  unfold failsafe_gcs_check
  rw [if_neg h0, if_neg ht]
  by_cases hw : tnow > add32 f.last_gcs_warn_ms 30000
  · simp only [hw, if_true]
    rw [if_pos hg]
  · simp only [hw, if_false]
    rw [if_pos hg]

/-- The call that triggers the failsafe: contact has been made, the monitor is
not disabled, the heartbeat has timed out, the flag is clear and the motors
are armed. -/
theorem failsafe_gcs_check_trigger (d : Defines) (g : Parameters) (tnow : Nat) (f : Failsafe)
    (h0 : ¬ (f.last_heartbeat_ms = 0 ∨ (g.failsafe_gcs = 0 ∧ g.failsafe_gcs = d.FS_GCS_DISABLED)))
    (ht : ¬ tnow < add32 f.last_heartbeat_ms d.FS_GCS_TIMEOUT_MS)
    (hg : f.gcs = false) :
    failsafe_gcs_check d g true tnow f =
      ({ f with gcs := true,
                last_gcs_warn_ms :=
                  if tnow > add32 f.last_gcs_warn_ms 30000 then tnow else f.last_gcs_warn_ms },
       (if tnow > add32 f.last_gcs_warn_ms 30000 then
          [Effect.gcs_send_text .MAV_SEVERITY_WARNING (.heartbeat_lost g.sysid_my_gcs)]
        else [])
       ++ [Effect.Log_Write_Error .ERROR_SUBSYSTEM_FAILSAFE_GCS .ERROR_CODE_FAILSAFE_OCCURRED]
       ++ (if g.failsafe_gcs = d.FS_GCS_DISARM then [Effect.init_disarm_motors]
           else if g.failsafe_gcs = d.FS_GCS_HOLD then
             [Effect.set_mode .ALT_HOLD .MODE_REASON_GCS_FAILSAFE]
           else if g.failsafe_gcs = d.FS_GCS_SURFACE then
             [Effect.set_mode .SURFACE .MODE_REASON_GCS_FAILSAFE]
           else [])) := by
  have hn : ¬ (f.gcs = true ∨ true = false) := by simp [hg]
  unfold failsafe_gcs_check
  rw [if_neg h0, if_neg ht]
  by_cases hw : tnow > add32 f.last_gcs_warn_ms 30000
  · simp only [hw, if_true, if_neg hn, and_true]
    split_ifs <;> simp
  · simp only [hw, if_false, if_neg hn, and_true]
    split_ifs <;> simp

/-- Every call of the check is one of: skipped, heartbeat recent, timed out
without a new trigger, or the triggering call. -/
theorem failsafe_gcs_check_cases (d : Defines) (g : Parameters) (armed : Bool)
    (tnow : Nat) (f : Failsafe) :
    failsafe_gcs_check d g armed tnow f = (f, []) ∨
    failsafe_gcs_check d g armed tnow f =
      ({ f with gcs := false },
       if f.gcs = true then
         [Effect.Log_Write_Error .ERROR_SUBSYSTEM_FAILSAFE_GCS .ERROR_CODE_FAILSAFE_RESOLVED]
       else []) ∨
    ((f.gcs = true ∨ armed = false) ∧
      failsafe_gcs_check d g armed tnow f =
        ({ f with last_gcs_warn_ms :=
                    if tnow > add32 f.last_gcs_warn_ms 30000 then tnow else f.last_gcs_warn_ms },
         if tnow > add32 f.last_gcs_warn_ms 30000 then
           [Effect.gcs_send_text .MAV_SEVERITY_WARNING (.heartbeat_lost g.sysid_my_gcs)]
         else [])) ∨
    (f.gcs = false ∧ armed = true ∧
      failsafe_gcs_check d g armed tnow f =
        ({ f with gcs := true,
                  last_gcs_warn_ms :=
                    if tnow > add32 f.last_gcs_warn_ms 30000 then tnow else f.last_gcs_warn_ms },
         (if tnow > add32 f.last_gcs_warn_ms 30000 then
            [Effect.gcs_send_text .MAV_SEVERITY_WARNING (.heartbeat_lost g.sysid_my_gcs)]
          else [])
         ++ [Effect.Log_Write_Error .ERROR_SUBSYSTEM_FAILSAFE_GCS .ERROR_CODE_FAILSAFE_OCCURRED]
         ++ (if g.failsafe_gcs = d.FS_GCS_DISARM then [Effect.init_disarm_motors]
             else if g.failsafe_gcs = d.FS_GCS_HOLD then
               [Effect.set_mode .ALT_HOLD .MODE_REASON_GCS_FAILSAFE]
             else if g.failsafe_gcs = d.FS_GCS_SURFACE then
               [Effect.set_mode .SURFACE .MODE_REASON_GCS_FAILSAFE]
             else []))) := by
  by_cases h0 : f.last_heartbeat_ms = 0 ∨
      (g.failsafe_gcs = 0 ∧ g.failsafe_gcs = d.FS_GCS_DISABLED)
  · exact Or.inl (failsafe_gcs_check_skip d g armed tnow f h0)
  · by_cases ht : tnow < add32 f.last_heartbeat_ms d.FS_GCS_TIMEOUT_MS
    · exact Or.inr (Or.inl (failsafe_gcs_check_recent d g armed tnow f h0 ht))
    · by_cases hg : f.gcs = true ∨ armed = false
      · exact Or.inr (Or.inr (Or.inl ⟨hg, failsafe_gcs_check_hold d g armed tnow f h0 ht hg⟩))
      · have hg1 : f.gcs = false := by
          cases h : f.gcs
          · rfl
          · exact absurd (Or.inl h) hg
        have ha : armed = true := by
          cases armed
          · exact absurd (Or.inr rfl) hg
          · rfl
        subst ha
        exact Or.inr (Or.inr (Or.inr
          ⟨hg1, rfl, failsafe_gcs_check_trigger d g tnow f h0 ht hg1⟩))

/-- The "occurred" log is issued exactly on a rising edge of `failsafe.gcs`. -/
theorem failsafe_gcs_check_occurred_iff (d : Defines) (g : Parameters) (armed : Bool)
    (tnow : Nat) (f : Failsafe) :
    Effect.Log_Write_Error .ERROR_SUBSYSTEM_FAILSAFE_GCS .ERROR_CODE_FAILSAFE_OCCURRED
        ∈ (failsafe_gcs_check d g armed tnow f).2 ↔
      (f.gcs = false ∧ (failsafe_gcs_check d g armed tnow f).1.gcs = true) := by
  rcases failsafe_gcs_check_cases d g armed tnow f with h | h | ⟨hg, h⟩ | ⟨hg, _, h⟩
  · rw [h]
    cases hg : f.gcs <;> simp
  · rw [h]
    cases hg : f.gcs <;> simp
  · rw [h]
    rcases hg with hg | hg
    · split_ifs <;> simp [hg]
    · split_ifs <;> simp
  · rw [h]
    simp [hg]

/-- An action is applied only on a rising edge of `failsafe.gcs`. -/
theorem failsafe_gcs_check_action_rising (d : Defines) (g : Parameters) (armed : Bool)
    (tnow : Nat) (f : Failsafe)
    (hact : ∃ e ∈ (failsafe_gcs_check d g armed tnow f).2, e.is_gcs_action = true) :
    f.gcs = false ∧ (failsafe_gcs_check d g armed tnow f).1.gcs = true := by
  obtain ⟨e, he, hact⟩ := hact
  rcases failsafe_gcs_check_cases d g armed tnow f with h | h | ⟨_, h⟩ | ⟨hg, _, h⟩
  · rw [h] at he
    simp at he
  · rw [h] at he
    split_ifs at he
    · rw [List.mem_singleton] at he
      subst he
      simp [Effect.is_gcs_action] at hact
    · simp at he
  · rw [h] at he
    split_ifs at he
    · rw [List.mem_singleton] at he
      subst he
      simp [Effect.is_gcs_action] at hact
    · simp at he
  · rw [h]
    exact ⟨hg, rfl⟩

/-- On a rising edge of `failsafe.gcs` the action selected by the parameter is applied. -/
theorem failsafe_gcs_check_rising_action (d : Defines) (g : Parameters) (armed : Bool)
    (tnow : Nat) (f : Failsafe)
    (hr : f.gcs = false ∧ (failsafe_gcs_check d g armed tnow f).1.gcs = true) :
    (g.failsafe_gcs = d.FS_GCS_DISARM →
      Effect.init_disarm_motors ∈ (failsafe_gcs_check d g armed tnow f).2) ∧
    (g.failsafe_gcs = d.FS_GCS_HOLD → d.FS_GCS_HOLD ≠ d.FS_GCS_DISARM →
      Effect.set_mode .ALT_HOLD .MODE_REASON_GCS_FAILSAFE
        ∈ (failsafe_gcs_check d g armed tnow f).2) ∧
    (g.failsafe_gcs = d.FS_GCS_SURFACE → d.FS_GCS_SURFACE ≠ d.FS_GCS_DISARM →
      d.FS_GCS_SURFACE ≠ d.FS_GCS_HOLD →
      Effect.set_mode .SURFACE .MODE_REASON_GCS_FAILSAFE
        ∈ (failsafe_gcs_check d g armed tnow f).2) := by
  obtain ⟨hg0, hg1⟩ := hr
  rcases failsafe_gcs_check_cases d g armed tnow f with h | h | ⟨_, h⟩ | ⟨_, _, h⟩
  · rw [h] at hg1
    simp [hg0] at hg1
  · rw [h] at hg1
    simp at hg1
  · rw [h] at hg1
    simp [hg0] at hg1
  · rw [h]
    refine ⟨?_, ?_, ?_⟩
    · intro hc
      simp [hc]
    · intro hc hne
      simp [hc, hne]
    · intro hc hne1 hne2
      simp [hc, hne1, hne2]

/-! ## Ground-station link monitor: runs -/

theorem gcs_run_cons (d : Defines) (f : Failsafe) (c : GcsCall) (rest : List GcsCall) :
    gcs_run d f (c :: rest) =
      { call := c, before := { f with last_heartbeat_ms := c.last_heartbeat_ms },
        after := (failsafe_gcs_check d c.g c.armed c.tnow
          { f with last_heartbeat_ms := c.last_heartbeat_ms }).1,
        effects := (failsafe_gcs_check d c.g c.armed c.tnow
          { f with last_heartbeat_ms := c.last_heartbeat_ms }).2 }
      :: gcs_run d (failsafe_gcs_check d c.g c.armed c.tnow
          { f with last_heartbeat_ms := c.last_heartbeat_ms }).1 rest := rfl

/-- From a state with the flag set, the next action in a run is preceded by a
call that cleared the flag. -/
theorem gcs_run_clear_before_action (d : Defines) (mid post : List GcsRecord) (b : GcsRecord)
    (calls : List GcsCall) (f : Failsafe) (hg : f.gcs = true)
    (hrun : gcs_run d f calls = mid ++ b :: post)
    (hb : ∃ e ∈ b.effects, e.is_gcs_action = true) :
    ∃ c ∈ mid, c.before.gcs = true ∧ c.after.gcs = false := by
  induction mid generalizing calls f with
  | nil =>
    cases calls with
    | nil => simp [gcs_run] at hrun
    | cons c rest =>
      rw [gcs_run_cons, List.nil_append, List.cons.injEq] at hrun
      rw [← hrun.1] at hb
      have h := (failsafe_gcs_check_action_rising d c.g c.armed c.tnow _ hb).1
      simp [hg] at h
  | cons m mid ih =>
    cases calls with
    | nil => simp [gcs_run] at hrun
    | cons c rest =>
      rw [gcs_run_cons, List.cons_append, List.cons.injEq] at hrun
      cases hm : m.after.gcs
      · refine ⟨m, List.mem_cons_self _ _, ?_, hm⟩
        rw [← hrun.1]
        exact hg
      · obtain ⟨c', hc', h⟩ := ih rest _ (by rw [← hrun.1] at hm; exact hm) hrun.2
        exact ⟨c', List.mem_cons_of_mem _ hc', h⟩

/-! ## Ground-station link monitor: claims -/

/-- C6. For every call of `failsafe_gcs_check`: the "occurred" log is issued if
and only if the call changes `failsafe.gcs` from false to true; any action
(`init_disarm_motors` or a `set_mode`) is issued only by such a call; with the
action parameter set to DISARM, HOLD or SURFACE (constants pairwise
distinct) the action `init_disarm_motors`, `set_mode(ALT_HOLD)` or
`set_mode(SURFACE)` is issued if and only if the call is such a rising edge;
a call that finds `failsafe.gcs` already true issues no action and no
"occurred" log, whatever the armed state. Hence in any run of calls, if `a`
and a later `b` both apply an action, some call strictly between them found
the flag set and cleared it. -/
theorem C6_gcs_action_once_per_rising_edge (d : Defines) (g : Parameters) (armed : Bool)
    (tnow : Nat) (f : Failsafe)
    (f0 : Failsafe) (calls : List GcsCall) (pre mid post : List GcsRecord) (a b : GcsRecord)
    (hrun : gcs_run d f0 calls = pre ++ a :: (mid ++ b :: post))
    (ha : ∃ e ∈ a.effects, e.is_gcs_action = true)
    (hb : ∃ e ∈ b.effects, e.is_gcs_action = true) :
    (Effect.Log_Write_Error .ERROR_SUBSYSTEM_FAILSAFE_GCS .ERROR_CODE_FAILSAFE_OCCURRED
        ∈ (failsafe_gcs_check d g armed tnow f).2 ↔
      (f.gcs = false ∧ (failsafe_gcs_check d g armed tnow f).1.gcs = true)) ∧
    ((∃ e ∈ (failsafe_gcs_check d g armed tnow f).2, e.is_gcs_action = true) →
      (f.gcs = false ∧ (failsafe_gcs_check d g armed tnow f).1.gcs = true)) ∧
    (g.failsafe_gcs = d.FS_GCS_DISARM →
      (Effect.init_disarm_motors ∈ (failsafe_gcs_check d g armed tnow f).2 ↔
        (f.gcs = false ∧ (failsafe_gcs_check d g armed tnow f).1.gcs = true))) ∧
    (g.failsafe_gcs = d.FS_GCS_HOLD → d.FS_GCS_HOLD ≠ d.FS_GCS_DISARM →
      (Effect.set_mode .ALT_HOLD .MODE_REASON_GCS_FAILSAFE
          ∈ (failsafe_gcs_check d g armed tnow f).2 ↔
        (f.gcs = false ∧ (failsafe_gcs_check d g armed tnow f).1.gcs = true))) ∧
    (g.failsafe_gcs = d.FS_GCS_SURFACE → d.FS_GCS_SURFACE ≠ d.FS_GCS_DISARM →
      d.FS_GCS_SURFACE ≠ d.FS_GCS_HOLD →
      (Effect.set_mode .SURFACE .MODE_REASON_GCS_FAILSAFE
          ∈ (failsafe_gcs_check d g armed tnow f).2 ↔
        (f.gcs = false ∧ (failsafe_gcs_check d g armed tnow f).1.gcs = true))) ∧
    (f.gcs = true →
      Effect.Log_Write_Error .ERROR_SUBSYSTEM_FAILSAFE_GCS .ERROR_CODE_FAILSAFE_OCCURRED
          ∉ (failsafe_gcs_check d g armed tnow f).2 ∧
      ∀ e ∈ (failsafe_gcs_check d g armed tnow f).2, e.is_gcs_action = false) ∧
    (∃ c ∈ mid, c.before.gcs = true ∧ c.after.gcs = false) := by
  have hocc := failsafe_gcs_check_occurred_iff d g armed tnow f
  have hact := failsafe_gcs_check_action_rising d g armed tnow f
  have hsel := failsafe_gcs_check_rising_action d g armed tnow f
  refine ⟨hocc, hact, ?_, ?_, ?_, ?_, ?_⟩
  · intro hc
    exact ⟨fun h => hact ⟨_, h, rfl⟩, fun h => (hsel h).1 hc⟩
  · intro hc hne
    exact ⟨fun h => hact ⟨_, h, rfl⟩, fun h => (hsel h).2.1 hc hne⟩
  · intro hc hne1 hne2
    exact ⟨fun h => hact ⟨_, h, rfl⟩, fun h => (hsel h).2.2 hc hne1 hne2⟩
  · intro hg
    refine ⟨fun h => ?_, fun e he => ?_⟩
    · have := (hocc.mp h).1
      simp [hg] at this
    · cases hv : e.is_gcs_action
      · rfl
      · have := (hact ⟨e, he, hv⟩).1
        simp [hg] at this
  · clear hocc hact hsel
    induction pre generalizing calls f0 with
    | nil =>
      cases calls with
      | nil => simp [gcs_run] at hrun
      | cons c rest =>
        rw [gcs_run_cons, List.nil_append, List.cons.injEq] at hrun
        rw [← hrun.1] at ha
        exact gcs_run_clear_before_action d mid post b rest _
          (failsafe_gcs_check_action_rising d c.g c.armed c.tnow _ ha).2 hrun.2 hb
    | cons p pre ih =>
      cases calls with
      | nil => simp [gcs_run] at hrun
      | cons c rest =>
        rw [gcs_run_cons, List.cons_append, List.cons.injEq] at hrun
        exact ih _ rest hrun.2

/-- Witness for C6: the run `sample_gcs_calls` applies the disarm action at
2501 ms and at 6000 ms; the call at 2600 ms between them cleared the flag. -/
theorem C6_gcs_action_once_per_rising_edge_witness :
    gcs_run sample_defines {} sample_gcs_calls
      = [] ++ sample_gcs_first :: ([sample_gcs_second] ++ sample_gcs_third :: []) ∧
    (Effect.init_disarm_motors ∈
        (failsafe_gcs_check sample_defines sample_parameters true 2501
          { last_heartbeat_ms := 1 }).2 ↔
      ((({ last_heartbeat_ms := 1 } : Failsafe).gcs = false) ∧
        (failsafe_gcs_check sample_defines sample_parameters true 2501
          { last_heartbeat_ms := 1 }).1.gcs = true)) ∧
    (∃ c ∈ [sample_gcs_second], c.before.gcs = true ∧ c.after.gcs = false) :=
  have h := C6_gcs_action_once_per_rising_edge sample_defines sample_parameters true 2501
    { last_heartbeat_ms := 1 } {} sample_gcs_calls
    [] [sample_gcs_second] [] sample_gcs_first sample_gcs_third
    (by decide) ⟨Effect.init_disarm_motors, by decide, rfl⟩
    ⟨Effect.init_disarm_motors, by decide, rfl⟩
  ⟨by decide, h.2.2.1 rfl, h.2.2.2.2.2.2⟩

/-- C7 (the scenario as stated fails). With the heartbeat "last seen at t = 0"
the field `failsafe.last_heartbeat_ms` is 0, which the check reads as "never
had contact": the call at `FS_GCS_TIMEOUT_MS + 1`, motors armed and action
DISARM, returns the state unchanged with no "occurred" log and no disarm call. -/
theorem C7_scenario_B_heartbeat_at_zero :
    failsafe_gcs_check sample_defines sample_parameters true
        (sample_defines.FS_GCS_TIMEOUT_MS + 1) { last_heartbeat_ms := 0, gcs := false }
      = ({ last_heartbeat_ms := 0, gcs := false }, []) ∧
    sample_parameters.failsafe_gcs = sample_defines.FS_GCS_DISARM ∧
    (failsafe_gcs_check sample_defines sample_parameters true
        (sample_defines.FS_GCS_TIMEOUT_MS + 1) { last_heartbeat_ms := 0, gcs := false }).2.count
      (Effect.Log_Write_Error .ERROR_SUBSYSTEM_FAILSAFE_GCS .ERROR_CODE_FAILSAFE_OCCURRED) = 0 ∧
    (failsafe_gcs_check sample_defines sample_parameters true
        (sample_defines.FS_GCS_TIMEOUT_MS + 1) { last_heartbeat_ms := 0, gcs := false }).2.count
      Effect.init_disarm_motors = 0 ∧
    (failsafe_gcs_check sample_defines sample_parameters true
        (sample_defines.FS_GCS_TIMEOUT_MS + 1) { last_heartbeat_ms := 0, gcs := false }).1.gcs
      = false := by
  decide

/-- The heartbeat test `tnow < last_heartbeat_ms + FS_GCS_TIMEOUT_MS` adds in
`uint32_t`: with the heartbeat stamped 4294966000 ms and a timeout of 2500 ms
the sum wraps to 1204, so the call one millisecond after the heartbeat takes
the timed-out path, logs no "resolved" and leaves `failsafe.gcs` set. -/
theorem failsafe_gcs_check_heartbeat_sum_wraps :
    failsafe_gcs_check sample_defines sample_parameters true 4294966001
        { last_heartbeat_ms := 4294966000, gcs := true, last_gcs_warn_ms := 4294937000 }
      = ({ last_heartbeat_ms := 4294966000, gcs := true, last_gcs_warn_ms := 4294937000 },
         []) ∧
    add32 4294966000 2500 = 1204 := by
  decide

/-- C7 (amended). Let the heartbeat be last seen at a nonzero time `h` such
that no `uint32_t` timestamp sum of the scenario wraps, that is
`h + 2 * FS_GCS_TIMEOUT_MS + 2 < 2^32`, with the motors armed, the configured
action DISARM (a value other than DISABLED) and `failsafe.gcs` initially
false. Then the call at `h + FS_GCS_TIMEOUT_MS + 1` produces exactly one
"occurred" log and exactly one `init_disarm_motors` call, no other action,
and sets `failsafe.gcs`; and after a heartbeat is received at
`h + FS_GCS_TIMEOUT_MS + 2`, a call at a time `t2` with
`h + FS_GCS_TIMEOUT_MS + 2 ≤ t2 < h + FS_GCS_TIMEOUT_MS + 2 + FS_GCS_TIMEOUT_MS`
(before that heartbeat times out in turn) produces exactly the "resolved"
log, clears `failsafe.gcs` and issues no action, whatever the armed state. -/
theorem C7_scenario_B_amended (d : Defines) (g : Parameters) (f : Failsafe) (h t2 : Nat)
    (armed2 : Bool)
    (hh : 0 < h)
    (hcfg : g.failsafe_gcs = d.FS_GCS_DISARM) (hne : d.FS_GCS_DISARM ≠ d.FS_GCS_DISABLED)
    (hhb : f.last_heartbeat_ms = h) (hg : f.gcs = false)
    (ht2 : h + d.FS_GCS_TIMEOUT_MS + 2 ≤ t2)
    (ht2' : t2 < h + d.FS_GCS_TIMEOUT_MS + 2 + d.FS_GCS_TIMEOUT_MS)
    (hwrap : h + d.FS_GCS_TIMEOUT_MS + 2 + d.FS_GCS_TIMEOUT_MS < U32) :
    (failsafe_gcs_check d g true (h + d.FS_GCS_TIMEOUT_MS + 1) f).2.count
      (Effect.Log_Write_Error .ERROR_SUBSYSTEM_FAILSAFE_GCS .ERROR_CODE_FAILSAFE_OCCURRED) = 1 ∧
    (failsafe_gcs_check d g true (h + d.FS_GCS_TIMEOUT_MS + 1) f).2.count
      Effect.init_disarm_motors = 1 ∧
    (∀ e ∈ (failsafe_gcs_check d g true (h + d.FS_GCS_TIMEOUT_MS + 1) f).2,
      e.is_gcs_action = true → e = Effect.init_disarm_motors) ∧
    (failsafe_gcs_check d g true (h + d.FS_GCS_TIMEOUT_MS + 1) f).1.gcs = true ∧
    failsafe_gcs_check d g armed2 t2
        { (failsafe_gcs_check d g true (h + d.FS_GCS_TIMEOUT_MS + 1) f).1 with
          last_heartbeat_ms := h + d.FS_GCS_TIMEOUT_MS + 2 }
      = ({ (failsafe_gcs_check d g true (h + d.FS_GCS_TIMEOUT_MS + 1) f).1 with
           last_heartbeat_ms := h + d.FS_GCS_TIMEOUT_MS + 2, gcs := false },
         [Effect.Log_Write_Error .ERROR_SUBSYSTEM_FAILSAFE_GCS
            .ERROR_CODE_FAILSAFE_RESOLVED]) := by
  have hdis : ¬ (g.failsafe_gcs = 0 ∧ g.failsafe_gcs = d.FS_GCS_DISABLED) := by
    rintro ⟨_, h2⟩
    exact hne (hcfg.symm.trans h2)
  have h0 : ¬ (f.last_heartbeat_ms = 0 ∨
      (g.failsafe_gcs = 0 ∧ g.failsafe_gcs = d.FS_GCS_DISABLED)) := by
    rintro (h1 | h1)
    · omega
    · exact hdis h1
  have ht : ¬ h + d.FS_GCS_TIMEOUT_MS + 1 < add32 f.last_heartbeat_ms d.FS_GCS_TIMEOUT_MS := by
    simp only [add32, U32] at hwrap ⊢
    omega
  rw [failsafe_gcs_check_trigger d g _ f h0 ht hg]
  refine ⟨?_, ?_, ?_, rfl, ?_⟩
  · split_ifs <;> simp [List.count_cons]
  · split_ifs <;> simp [List.count_cons]
  · intro e he hact
    simp only [hcfg, if_true, List.mem_append, List.mem_singleton] at he
    rcases he with (he | he) | he
    · split_ifs at he
      · rw [List.mem_singleton] at he
        subst he
        simp [Effect.is_gcs_action] at hact
      · simp at he
    · subst he
      simp [Effect.is_gcs_action] at hact
    · exact he
  · rw [failsafe_gcs_check_recent]
    · simp
    · rintro (h1 | h1)
      · simp at h1
      · exact hdis h1
    · simp only [add32, U32] at hwrap ⊢
      show t2 < (h + d.FS_GCS_TIMEOUT_MS + 2 + d.FS_GCS_TIMEOUT_MS) % 4294967296
      omega

/-- Witness for C7 (amended): heartbeat last seen at 1 ms, timeout 2500 ms,
calls at 2502 ms and, after the heartbeat at 2503 ms, at 2503 ms. -/
theorem C7_scenario_B_amended_witness :
    (failsafe_gcs_check sample_defines sample_parameters true 2502
        { last_heartbeat_ms := 1 }).2.count Effect.init_disarm_motors = 1 ∧
    failsafe_gcs_check sample_defines sample_parameters false 2503
        { (failsafe_gcs_check sample_defines sample_parameters true 2502
            { last_heartbeat_ms := 1 }).1 with last_heartbeat_ms := 2503 }
      = ({ (failsafe_gcs_check sample_defines sample_parameters true 2502
             { last_heartbeat_ms := 1 }).1 with last_heartbeat_ms := 2503, gcs := false },
         [Effect.Log_Write_Error .ERROR_SUBSYSTEM_FAILSAFE_GCS
            .ERROR_CODE_FAILSAFE_RESOLVED]) :=
  have h := C7_scenario_B_amended sample_defines sample_parameters { last_heartbeat_ms := 1 }
    1 2503 false (by decide) (by decide) (by decide) rfl rfl (by decide) (by decide) (by decide)
  ⟨h.2.1, h.2.2.2.2⟩

/-- C8. With `failsafe.last_heartbeat_ms == 0`, for every time, armed state and
parameter value, `failsafe_gcs_check` returns the `failsafe` struct unchanged
(so `gcs` and `last_gcs_warn_ms` are unchanged) and requests nothing: no
warning, no log, no action. -/
theorem C8_gcs_noop_before_first_contact (d : Defines) (g : Parameters) (armed : Bool)
    (tnow : Nat) (f : Failsafe) (h : f.last_heartbeat_ms = 0) :
    failsafe_gcs_check d g armed tnow f = (f, []) :=
  failsafe_gcs_check_skip d g armed tnow f (Or.inl h)

/-- Witness for C8: never contacted, armed, the flag set, long after start-up. -/
theorem C8_gcs_noop_before_first_contact_witness :
    ({ last_heartbeat_ms := 0, gcs := true } : Failsafe).last_heartbeat_ms = 0 ∧
    failsafe_gcs_check sample_defines sample_parameters true 100000
        { last_heartbeat_ms := 0, gcs := true }
      = ({ last_heartbeat_ms := 0, gcs := true }, []) :=
  ⟨rfl, C8_gcs_noop_before_first_contact sample_defines sample_parameters true 100000
    { last_heartbeat_ms := 0, gcs := true } rfl⟩

/-- A call sends the "heartbeat lost" warning only when the current time
exceeds the wrapped sum `last_gcs_warn_ms + 30000`, and then records the
current time; in every case the recorded time is the old one or the current one. -/
theorem failsafe_gcs_check_warning (d : Defines) (g : Parameters) (armed : Bool)
    (tnow : Nat) (f : Failsafe) :
    ((∃ e ∈ (failsafe_gcs_check d g armed tnow f).2, e.is_heartbeat_lost = true) →
      tnow > add32 f.last_gcs_warn_ms 30000 ∧
      (failsafe_gcs_check d g armed tnow f).1.last_gcs_warn_ms = tnow) ∧
    ((failsafe_gcs_check d g armed tnow f).1.last_gcs_warn_ms = f.last_gcs_warn_ms ∨
      (failsafe_gcs_check d g armed tnow f).1.last_gcs_warn_ms = tnow) := by
  rcases failsafe_gcs_check_cases d g armed tnow f with h | h | ⟨_, h⟩ | ⟨_, _, h⟩
  · rw [h]
    simp
  · rw [h]
    refine ⟨?_, Or.inl rfl⟩
    rintro ⟨e, he, hw⟩
    split_ifs at he
    · rw [List.mem_singleton] at he
      subst he
      simp [Effect.is_heartbeat_lost] at hw
    · simp at he
  · rw [h]
    by_cases hw : tnow > add32 f.last_gcs_warn_ms 30000
    · simp [hw]
    · simp [hw]
  · rw [h]
    by_cases hw : tnow > add32 f.last_gcs_warn_ms 30000
    · simp [hw]
    · refine ⟨?_, by simp [hw]⟩
      rintro ⟨e, he, hl⟩
      exfalso
      simp only [hw, if_false, List.nil_append] at he
      rw [List.mem_append, List.mem_singleton] at he
      rcases he with he | he
      · subst he
        simp [Effect.is_heartbeat_lost] at hl
      · split_ifs at he <;> first
          | (rw [List.mem_singleton] at he; subst he; simp [Effect.is_heartbeat_lost] at hl)
          | simp at he

/-- After the warning time was set to at least `lo`, every later warning of a
run comes more than 30,000 ms after `lo`, as long as no call time is within
30,000 ms of the wrap of the 32-bit clock. -/
theorem gcs_run_warning_after (d : Defines) (calls : List GcsCall) (f : Failsafe) (lo : Nat)
    (hlo : lo ≤ f.last_gcs_warn_ms)
    (hts : ∀ c ∈ calls, f.last_gcs_warn_ms ≤ c.tnow ∧ c.tnow + 30000 < U32)
    (hmono : List.Pairwise (fun a b : GcsCall => a.tnow ≤ b.tnow) calls) :
    ∀ r ∈ gcs_run d f calls, (∃ e ∈ r.effects, e.is_heartbeat_lost = true) →
      r.call.tnow > lo + 30000 := by
  induction calls generalizing f with
  | nil => intro r hr; simp [gcs_run] at hr
  | cons c rest ih =>
    intro r hr hw
    rw [gcs_run_cons, List.mem_cons] at hr
    have hc := hts c (List.mem_cons_self _ _)
    rw [List.pairwise_cons] at hmono
    have hstep := failsafe_gcs_check_warning d c.g c.armed c.tnow
      { f with last_heartbeat_ms := c.last_heartbeat_ms }
    rcases hr with hr | hr
    · subst hr
      have h : c.tnow > add32 f.last_gcs_warn_ms 30000 := (hstep.1 hw).1
      show c.tnow > lo + 30000
      simp only [add32, U32] at h hc
      omega
    · refine ih _ ?_ ?_ hmono.2 r hr hw
      · rcases hstep.2 with h | h
        · rw [h]; exact hlo
        · rw [h]; exact hlo.trans hc.1
      · intro c' hc'
        refine ⟨?_, (hts c' (List.mem_cons_of_mem _ hc')).2⟩
        rcases hstep.2 with h | h
        · rw [h]; exact (hts c' (List.mem_cons_of_mem _ hc')).1
        · rw [h]; exact hmono.1 c' hc'

/-- Away from the wrap of the 32-bit clock the warning is rate limited: in a run
with non-decreasing call times, none within 30,000 ms of `2^32`, any two
"heartbeat lost" warnings are more than 30,000 ms apart. -/
theorem gcs_run_warning_rate_limit_no_wrap (d : Defines) (calls : List GcsCall) (f : Failsafe)
    (hts : ∀ c ∈ calls, c.tnow + 30000 < U32)
    (hmono : List.Pairwise (fun a b : GcsCall => a.tnow ≤ b.tnow) calls) :
    List.Pairwise (fun a b : GcsRecord =>
        (∃ e ∈ a.effects, e.is_heartbeat_lost = true) →
        (∃ e ∈ b.effects, e.is_heartbeat_lost = true) →
        b.call.tnow > a.call.tnow + 30000)
      (gcs_run d f calls) := by
  induction calls generalizing f with
  | nil => simp [gcs_run]
  | cons c rest ih =>
    rw [List.pairwise_cons] at hmono
    rw [gcs_run_cons, List.pairwise_cons]
    refine ⟨?_, ih _ (fun c' hc' => hts c' (List.mem_cons_of_mem _ hc')) hmono.2⟩
    intro b hb ha hbw
    have hstep := failsafe_gcs_check_warning d c.g c.armed c.tnow
      { f with last_heartbeat_ms := c.last_heartbeat_ms }
    have hset := (hstep.1 ha).2
    refine gcs_run_warning_after d rest _ c.tnow (by rw [hset]) ?_ hmono.2 b hb hbw
    intro c' hc'
    rw [hset]
    exact ⟨hmono.1 c' hc', hts c' (List.mem_cons_of_mem _ hc')⟩

/-- C9 (the code departs from the claim). The warning test is
`tnow > failsafe.last_gcs_warn_ms + 30000` with the sum taken modulo `2^32`.
After a warning at 4294950000 ms the sum wraps to 12704, so the call one
millisecond later warns again: two "heartbeat lost" warnings 1 ms apart in a
run with increasing `uint32_t` times. -/
theorem C9_gcs_warning_repeats_after_wrap :
    (gcs_run sample_defines {}
        [⟨4294950000, false, sample_parameters, 4294900000⟩,
         ⟨4294950001, false, sample_parameters, 4294900000⟩]).map
      (fun r => (r.call.tnow, r.before.last_gcs_warn_ms, r.effects))
    = [(4294950000, 0,
         [Effect.gcs_send_text .MAV_SEVERITY_WARNING (.heartbeat_lost 255)]),
       (4294950001, 4294950000,
         [Effect.gcs_send_text .MAV_SEVERITY_WARNING (.heartbeat_lost 255)])] ∧
    add32 4294950000 30000 = 12704 := by
  decide

/-! ## Internal pressure monitor -/

/-- Polling every millisecond from the initial state with the reading never
below the threshold: up to 30 s the statics stay zero, no warning is sent, and
the flag after the poll at time `t` is set exactly when `t > 2000`. -/
theorem pressure_poll_every_ms_bad (d : Defines) (g : Parameters) (below : Nat → Bool)
    (s0 : Sub) (t : Nat)
    (hen : g.failsafe_pressure ≠ d.FS_PRESS_DISABLED)
    (hgood : s0.last_pressure_good_ms = 0) (hwarn : s0.last_pressure_warn_ms = 0)
    (hflag : s0.failsafe.internal_pressure = false)
    (hbad : ∀ u ≤ t, below u = false) (ht : t ≤ 30000) :
    pressure_poll_every_ms d g below s0 t =
      ({ s0 with failsafe := { s0.failsafe with internal_pressure := decide (2000 < t) } },
       []) := by
  induction t with
  | zero =>
    have hb := hbad 0 (Nat.le_refl _)
    obtain ⟨f, w, gd, tw, tg⟩ := s0
    obtain ⟨f1, f2, f3, f4, f5, f6, f7, f8, f9, f10, f11, f12⟩ := f
    simp only at hgood hwarn hflag
    subst hgood hwarn hflag
    simp [pressure_poll_every_ms, failsafe_internal_pressure_check, hen, hb, add32, U32]
  | succ t ih =>
    have hb := hbad (t + 1) (Nat.le_refl _)
    rw [pressure_poll_every_ms, ih (fun u hu => hbad u (Nat.le_succ_of_le hu)) (by omega)]
    unfold failsafe_internal_pressure_check
    rw [if_neg hen]
    simp only [hb, hgood, hwarn, add32, U32]
    by_cases h2 : 2000 < t + 1
    · have h3 : ¬ (t + 1 > 30000 % 4294967296) := by omega
      simp [h2, h3]
    · have h3 : ¬ (2000 < t) := by omega
      simp [h2, h3]

/-- C10 (the scenario as stated fails). Polling every millisecond from the
initial state with the pressure reading never below the threshold, the flag
`failsafe.internal_pressure` is still false after the poll at t = 2000 ms:
the trigger test is `tnow > last_pressure_good_ms + 2000`, strictly. -/
theorem C10_scenario_C_not_triggered_at_2000 :
    (pressure_poll_every_ms sample_defines sample_parameters
      (fun _ => false) {} 2000).1.failsafe.internal_pressure = false := by
  rw [pressure_poll_every_ms_bad sample_defines sample_parameters (fun _ => false) {} 2000
    (by decide) rfl rfl rfl (fun _ _ => rfl) (by decide)]
  rfl

/-- C10 (amended). From the initial pressure-monitor state (both timestamps
zero, `failsafe.internal_pressure` false, monitor enabled), polling
`failsafe_internal_pressure_check` at every millisecond from t = 0 with the
reading not below the threshold up to time `t ≤ 2100`, the flag after the
poll at time `t` is true exactly when `t > 2000`: it is false after every poll
with `t ≤ 2000` and becomes true at the poll at t = 2001 ms. -/
theorem C10_scenario_C_trigger_time (d : Defines) (g : Parameters) (below : Nat → Bool)
    (s0 : Sub) (t : Nat)
    (hen : g.failsafe_pressure ≠ d.FS_PRESS_DISABLED)
    (hgood : s0.last_pressure_good_ms = 0) (hwarn : s0.last_pressure_warn_ms = 0)
    (hflag : s0.failsafe.internal_pressure = false)
    (hbad : ∀ u ≤ t, below u = false) (ht : t ≤ 2100) :
    (pressure_poll_every_ms d g below s0 t).1.failsafe.internal_pressure = decide (2000 < t) := by
  rw [pressure_poll_every_ms_bad d g below s0 t hen hgood hwarn hflag hbad (by omega)]

/-- Witness for C10 (amended): the flag is set after the poll at t = 2001 ms. -/
theorem C10_scenario_C_trigger_time_witness :
    (pressure_poll_every_ms sample_defines sample_parameters
      (fun _ => false) {} 2001).1.failsafe.internal_pressure = true :=
  (C10_scenario_C_trigger_time sample_defines sample_parameters (fun _ => false) {} 2001
    (by decide) rfl rfl rfl (fun _ _ => rfl) (by decide)).trans (by decide)

/-- Continuing the same polling to t = 30001 ms: the first warning is sent at
that poll, the first one more than 30,000 ms after the last-warn timestamp 0. -/
theorem pressure_poll_every_ms_first_warning (d : Defines) (g : Parameters)
    (below : Nat → Bool) (s0 : Sub)
    (hen : g.failsafe_pressure ≠ d.FS_PRESS_DISABLED)
    (hgood : s0.last_pressure_good_ms = 0) (hwarn : s0.last_pressure_warn_ms = 0)
    (hflag : s0.failsafe.internal_pressure = false)
    (hbad : ∀ u ≤ 30001, below u = false) :
    pressure_poll_every_ms d g below s0 30001 =
      ({ s0 with failsafe := { s0.failsafe with internal_pressure := true },
                 last_pressure_warn_ms := 30001 },
       [Effect.gcs_send_text .MAV_SEVERITY_WARNING .internal_pressure_critical]) := by
  have hb := hbad 30001 (Nat.le_refl _)
  rw [pressure_poll_every_ms,
    pressure_poll_every_ms_bad d g below s0 30000 hen hgood hwarn hflag
      (fun u hu => hbad u (Nat.le_succ_of_le hu)) (Nat.le_refl _)]
  unfold failsafe_internal_pressure_check
  rw [if_neg hen]
  simp [hb, hgood, hwarn, add32, U32]

/-- C11 (the scenario as stated fails). In the run of Scenario C the flag
`failsafe.internal_pressure` becomes true at the poll at t = 2001 ms (false
after the poll at 2000, true after the poll at 2001), and that poll sends no
warning: the warn test is `tnow > last_pressure_warn_ms + 30000` with
`last_pressure_warn_ms` still 0. -/
theorem C11_scenario_C_no_warning_at_trigger :
    (pressure_poll_every_ms sample_defines sample_parameters
      (fun _ => false) {} 2000).1.failsafe.internal_pressure = false ∧
    (pressure_poll_every_ms sample_defines sample_parameters
      (fun _ => false) {} 2001).1.failsafe.internal_pressure = true ∧
    (pressure_poll_every_ms sample_defines sample_parameters
      (fun _ => false) {} 2001).2 = [] := by
  rw [pressure_poll_every_ms_bad sample_defines sample_parameters (fun _ => false) {} 2000
      (by decide) rfl rfl rfl (fun _ _ => rfl) (by decide),
    pressure_poll_every_ms_bad sample_defines sample_parameters (fun _ => false) {} 2001
      (by decide) rfl rfl rfl (fun _ _ => rfl) (by decide)]
  exact ⟨rfl, by decide, rfl⟩

/-- C11 (amended). In the run of Scenario C (initial state with both timestamps
zero and the flag false, monitor enabled, reading not below the threshold,
polled every millisecond from t = 0), no poll up to t = 2100 ms sends the
"Internal pressure critical!" warning: none before the poll at which
`failsafe.internal_pressure` becomes true and none at that poll either. -/
theorem C11_scenario_C_no_warning (d : Defines) (g : Parameters) (below : Nat → Bool)
    (s0 : Sub) (t : Nat)
    (hen : g.failsafe_pressure ≠ d.FS_PRESS_DISABLED)
    (hgood : s0.last_pressure_good_ms = 0) (hwarn : s0.last_pressure_warn_ms = 0)
    (hflag : s0.failsafe.internal_pressure = false)
    (hbad : ∀ u ≤ t, below u = false) (ht : t ≤ 2100) :
    (pressure_poll_every_ms d g below s0 t).2 = [] := by
  rw [pressure_poll_every_ms_bad d g below s0 t hen hgood hwarn hflag hbad (by omega)]

/-- Witness for C11 (amended): the last poll of the scenario, at t = 2100 ms. -/
theorem C11_scenario_C_no_warning_witness :
    (pressure_poll_every_ms sample_defines sample_parameters (fun _ => false) {} 2100).2 = [] :=
  C11_scenario_C_no_warning sample_defines sample_parameters (fun _ => false) {} 2100
    (by decide) rfl rfl rfl (fun _ _ => rfl) (by decide)

/-! ## Internal pressure and temperature monitors: single-call facts -/

/-- A pressure reading below the threshold resets both timestamps to the
current time and clears the flag, with no effect. -/
theorem failsafe_internal_pressure_check_good (d : Defines) (g : Parameters) (tnow : Nat)
    (s : Sub) (hen : g.failsafe_pressure ≠ d.FS_PRESS_DISABLED) :
    failsafe_internal_pressure_check d g true tnow s =
      ({ s with last_pressure_good_ms := tnow, last_pressure_warn_ms := tnow,
                failsafe := { s.failsafe with internal_pressure := false } }, []) := by
  unfold failsafe_internal_pressure_check
  rw [if_neg hen]
  simp

/-- The pressure flag rises only on a reading not below the threshold, at a
time greater than the wrapped sum `last_pressure_good_ms + 2000`. -/
theorem failsafe_internal_pressure_check_rising (d : Defines) (g : Parameters) (below : Bool)
    (tnow : Nat) (s : Sub) (hf : s.failsafe.internal_pressure = false)
    (hr : (failsafe_internal_pressure_check d g below tnow s).1.failsafe.internal_pressure
      = true) :
    below = false ∧ tnow > add32 s.last_pressure_good_ms 2000 := by
  revert hr
  unfold failsafe_internal_pressure_check
  cases below <;> split_ifs <;> simp_all

/-- A temperature reading below the threshold resets both timestamps to the
current time and clears the flag, with no effect. -/
theorem failsafe_internal_temperature_check_good (d : Defines) (g : Parameters) (tnow : Nat)
    (s : Sub) (hen : g.failsafe_temperature ≠ d.FS_TEMP_DISABLED) :
    failsafe_internal_temperature_check d g true tnow s =
      ({ s with last_temperature_good_ms := tnow, last_temperature_warn_ms := tnow,
                failsafe := { s.failsafe with internal_temperature := false } }, []) := by
  unfold failsafe_internal_temperature_check
  rw [if_neg hen]
  simp

/-- The temperature flag rises only on a reading not below the threshold, at
a time greater than the wrapped sum `last_temperature_good_ms + 2000`. -/
theorem failsafe_internal_temperature_check_rising (d : Defines) (g : Parameters)
    (below : Bool) (tnow : Nat) (s : Sub) (hf : s.failsafe.internal_temperature = false)
    (hr : (failsafe_internal_temperature_check d g below tnow s).1.failsafe.internal_temperature
      = true) :
    below = false ∧ tnow > add32 s.last_temperature_good_ms 2000 := by
  revert hr
  unfold failsafe_internal_temperature_check
  cases below <;> split_ifs <;> simp_all

/-- C12 (the code departs from the claim). A pressure reading below the
threshold at 4294966000 ms sets `last_pressure_good_ms` to that time; the
reading not below the threshold one millisecond later sets
`failsafe.internal_pressure`, because the `uint32_t` sum
`last_pressure_good_ms + 2000` has wrapped to 704. The temperature check
does the same. -/
theorem C12_debounce_skipped_after_wrap :
    (failsafe_internal_pressure_check sample_defines sample_parameters true 4294966000
      {}).1.last_pressure_good_ms = 4294966000 ∧
    (failsafe_internal_pressure_check sample_defines sample_parameters true 4294966000
      {}).1.failsafe.internal_pressure = false ∧
    (failsafe_internal_pressure_check sample_defines sample_parameters false 4294966001
      (failsafe_internal_pressure_check sample_defines sample_parameters true 4294966000
        {}).1).1.failsafe.internal_pressure = true ∧
    (failsafe_internal_temperature_check sample_defines
      { sample_parameters with failsafe_temperature := 1 } true 4294966000
      {}).1.last_temperature_good_ms = 4294966000 ∧
    (failsafe_internal_temperature_check sample_defines
      { sample_parameters with failsafe_temperature := 1 } false 4294966001
      (failsafe_internal_temperature_check sample_defines
        { sample_parameters with failsafe_temperature := 1 } true 4294966000
        {}).1).1.failsafe.internal_temperature = true ∧
    add32 4294966000 2000 = 704 := by
  decide

/-! ## Manual-control monitor -/

/-- Away from the wrap of the 32-bit clock (`last_manual_control_ms + 2000`
does not overflow) the check is the plain timeout step: past the timeout the
flag is set, with the four actions exactly when it was unset before; within
the timeout the flag is cleared and nothing is requested. -/
theorem failsafe_manual_control_check_no_wrap (m : control_mode_t) (tnow : Nat) (f : Failsafe)
    (hw : f.last_manual_control_ms + 2000 < U32) :
    (tnow > f.last_manual_control_ms + 2000 →
      failsafe_manual_control_check false m tnow f =
        ({ f with manual_control := true },
         if f.manual_control = false then
           [Effect.set_neutral_controls, Effect.init_disarm_motors,
            Effect.Log_Write_Error .ERROR_SUBSYSTEM_INPUT .ERROR_CODE_FAILSAFE_OCCURRED,
            Effect.gcs_send_text .MAV_SEVERITY_CRITICAL .lost_manual_control]
         else [])) ∧
    (tnow ≤ f.last_manual_control_ms + 2000 →
      failsafe_manual_control_check false m tnow f = ({ f with manual_control := false }, [])) := by
  have ha : add32 f.last_manual_control_ms 2000 = f.last_manual_control_ms + 2000 := by
    simp only [add32, U32] at hw ⊢
    omega
  unfold failsafe_manual_control_check
  rw [ha]
  refine ⟨fun h => ?_, fun h => ?_⟩
  · cases hf : f.manual_control <;> simp [h]
    cases f
    simp_all
  · simp [Nat.not_lt.mpr h]

/-- C13 (the claim as stated fails). In a non-simulation build, with the
vehicle in AUTO (or GUIDED) and the last manual-control update more than
2000 ms old, `failsafe_manual_control_check` sets `failsafe.manual_control`
and requests neutral controls, a disarm, the "occurred" log and the critical
warning: the function has no test of the control mode. -/
theorem C13_manual_control_fires_in_auto :
    failsafe_manual_control_check false .AUTO 2001 { last_manual_control_ms := 0 }
      = ({ last_manual_control_ms := 0, manual_control := true },
         [Effect.set_neutral_controls, Effect.init_disarm_motors,
          Effect.Log_Write_Error .ERROR_SUBSYSTEM_INPUT .ERROR_CODE_FAILSAFE_OCCURRED,
          Effect.gcs_send_text .MAV_SEVERITY_CRITICAL .lost_manual_control]) ∧
    failsafe_manual_control_check false .GUIDED 2001 { last_manual_control_ms := 0 }
      = ({ last_manual_control_ms := 0, manual_control := true },
         [Effect.set_neutral_controls, Effect.init_disarm_motors,
          Effect.Log_Write_Error .ERROR_SUBSYSTEM_INPUT .ERROR_CODE_FAILSAFE_OCCURRED,
          Effect.gcs_send_text .MAV_SEVERITY_CRITICAL .lost_manual_control]) := by
  decide

/-- C13 (amended). `failsafe_manual_control_check` does not depend on the
control mode: for every build, time and state it returns the same state and
requests the same actions in any two modes, AUTO and GUIDED included. It
leaves `failsafe.manual_control` unchanged and requests nothing, however long
ago the last manual-control update was, in a simulation (SITL) build. -/
theorem C13_manual_control_ignores_mode (hal_board_sitl : Bool) (m1 m2 : control_mode_t)
    (tnow : Nat) (f : Failsafe) :
    failsafe_manual_control_check hal_board_sitl m1 tnow f
      = failsafe_manual_control_check hal_board_sitl m2 tnow f ∧
    failsafe_manual_control_check true m1 tnow f = (f, []) :=
  ⟨rfl, rfl⟩

/-- C14 (the code departs from the claim). With the last manual-control update
at 4294966000 ms, the call one millisecond later sets
`failsafe.manual_control` and requests neutral controls, a disarm, the
"occurred" log and the critical warning, although 1 ms has elapsed: the
`uint32_t` sum `last_manual_control_ms + 2000` has wrapped to 704. -/
theorem C14_manual_control_fires_after_wrap :
    failsafe_manual_control_check false .STABILIZE 4294966001
        { last_manual_control_ms := 4294966000 }
      = ({ last_manual_control_ms := 4294966000, manual_control := true },
         [Effect.set_neutral_controls, Effect.init_disarm_motors,
          Effect.Log_Write_Error .ERROR_SUBSYSTEM_INPUT .ERROR_CODE_FAILSAFE_OCCURRED,
          Effect.gcs_send_text .MAV_SEVERITY_CRITICAL .lost_manual_control]) ∧
    sub32 4294966001 4294966000 = 1 ∧
    add32 4294966000 2000 = 704 := by
  decide

/-! ## Leak monitor -/

/-- The call when dry, or with the leak action disabled: the flag is cleared
and "resolved" is logged if it was set. -/
theorem set_leak_status_dry (d : Defines) (g : Parameters) (armed : Bool) (tnow : Nat)
    (status : Bool) (f : Failsafe)
    (h : status = false ∨ g.failsafe_leak = d.FS_LEAK_DISABLED) :
    set_leak_status d g armed tnow status f =
      ({ f with leak := false },
       Effect.notify_leak_detected status ::
         (if f.leak = true then
            [Effect.Log_Write_Error .ERROR_SUBSYSTEM_FAILSAFE_LEAK
              .ERROR_CODE_FAILSAFE_RESOLVED]
          else [])) := by
  unfold set_leak_status
  rw [if_pos h]
  rfl

/-- The call with a leak and the action not disabled: the rate-limited
warning, then, only if the flag was clear, the flag is set, "occurred" is
logged and the surface mode is requested when configured and armed. -/
theorem set_leak_status_wet (d : Defines) (g : Parameters) (armed : Bool) (tnow : Nat)
    (status : Bool) (f : Failsafe)
    (h : ¬ (status = false ∨ g.failsafe_leak = d.FS_LEAK_DISABLED)) :
    set_leak_status d g armed tnow status f =
      ({ f with leak := true,
                last_leak_warn_ms :=
                  if tnow > add32 f.last_leak_warn_ms 20000 then tnow
                  else f.last_leak_warn_ms },
       Effect.notify_leak_detected status ::
         ((if tnow > add32 f.last_leak_warn_ms 20000 then
             [Effect.gcs_send_text .MAV_SEVERITY_CRITICAL .leak_detected]
           else [])
          ++ (if f.leak = true then []
              else
                Effect.Log_Write_Error .ERROR_SUBSYSTEM_FAILSAFE_LEAK
                    .ERROR_CODE_FAILSAFE_OCCURRED ::
                  (if g.failsafe_leak = d.FS_LEAK_SURFACE ∧ armed = true then
                     [Effect.set_mode .SURFACE .MODE_REASON_LEAK_FAILSAFE]
                   else [])))) := by
  unfold set_leak_status
  rw [if_neg h]
  by_cases hw : tnow > add32 f.last_leak_warn_ms 20000
  · cases hl : f.leak
    · by_cases hs : g.failsafe_leak = d.FS_LEAK_SURFACE ∧ armed = true
      · simp [hw, hl, hs]
      · simp [hw, hl, hs]
    · simp [hw, hl]
  · cases hl : f.leak
    · by_cases hs : g.failsafe_leak = d.FS_LEAK_SURFACE ∧ armed = true
      · simp [hw, hl, hs]
      · simp [hw, hl, hs]
    · simp [hw, hl]
      cases f
      simp_all

/-- For `set_leak_status(true)` with the action not disabled, the warning is
sent exactly when the current time exceeds the wrapped sum
`last_leak_warn_ms + 20000`, whatever the value of `failsafe.leak`, and then
`last_leak_warn_ms` is set to the current time. -/
theorem set_leak_status_warning (d : Defines) (g : Parameters) (armed : Bool) (tnow : Nat)
    (f : Failsafe) (hen : g.failsafe_leak ≠ d.FS_LEAK_DISABLED) :
    (Effect.gcs_send_text .MAV_SEVERITY_CRITICAL .leak_detected
        ∈ (set_leak_status d g armed tnow true f).2 ↔
      tnow > add32 f.last_leak_warn_ms 20000) ∧
    (set_leak_status d g armed tnow true f).1.last_leak_warn_ms =
      (if tnow > add32 f.last_leak_warn_ms 20000 then tnow else f.last_leak_warn_ms) := by
  have h : ¬ (true = false ∨ g.failsafe_leak = d.FS_LEAK_DISABLED) := by simp [hen]
  rw [set_leak_status_wet d g armed tnow true f h]
  refine ⟨?_, rfl⟩
  by_cases hw : tnow > add32 f.last_leak_warn_ms 20000
  · simp [hw]
  · cases hl : f.leak
    · by_cases hs : g.failsafe_leak = d.FS_LEAK_SURFACE ∧ armed = true
      · simp [hw, hs]
      · simp [hw, hs]
    · simp [hw]

/-- C15 (the code departs from the claim). The warning cadence does not depend
on `failsafe.leak`, but the warn test is `tnow > failsafe.last_leak_warn_ms +
20000` with the sum taken modulo `2^32`: after a warning at 4294950000 ms the
sum wraps to 2704, so the call one millisecond later warns again. Two
"Leak Detected" warnings 1 ms apart in a run with increasing `uint32_t` times. -/
theorem C15_leak_warning_repeats_after_wrap :
    (leak_run sample_defines { sample_parameters with failsafe_leak := 1 } {}
        [⟨4294950000, false⟩, ⟨4294950001, false⟩]).map
      (fun r => (r.call.tnow, r.before.last_leak_warn_ms, r.before.leak, r.effects))
    = [(4294950000, 0, false,
         [Effect.notify_leak_detected true,
          Effect.gcs_send_text .MAV_SEVERITY_CRITICAL .leak_detected,
          Effect.Log_Write_Error .ERROR_SUBSYSTEM_FAILSAFE_LEAK
            .ERROR_CODE_FAILSAFE_OCCURRED]),
       (4294950001, 4294950000, true,
         [Effect.notify_leak_detected true,
          Effect.gcs_send_text .MAV_SEVERITY_CRITICAL .leak_detected])] ∧
    add32 4294950000 20000 = 2704 := by
  decide

/-- C16. For every call `set_leak_status(status)`: the first thing done is
the write `AP_Notify::flags.leak_detected = status`, the only write to that
flag, whatever the configuration. If `status` is false or the action is
disabled, `failsafe.leak` is false afterwards, the "resolved" log is emitted
if and only if it was true before, and no mode change is requested.
Otherwise `failsafe.leak` is true afterwards, the "occurred" log is emitted
if and only if it was false before, and `set_mode(SURFACE)` is requested if
and only if `failsafe.leak` was false before, the configured action is
SURFACE and the motors are armed; no other mode is ever requested. -/
theorem C16_leak_state_and_action (d : Defines) (g : Parameters) (armed : Bool) (tnow : Nat)
    (status : Bool) (f : Failsafe) :
    (∃ rest, (set_leak_status d g armed tnow status f).2
        = Effect.notify_leak_detected status :: rest ∧
      ∀ b, Effect.notify_leak_detected b ∉ rest) ∧
    ((status = false ∨ g.failsafe_leak = d.FS_LEAK_DISABLED) →
      (set_leak_status d g armed tnow status f).1.leak = false ∧
      (Effect.Log_Write_Error .ERROR_SUBSYSTEM_FAILSAFE_LEAK .ERROR_CODE_FAILSAFE_RESOLVED
          ∈ (set_leak_status d g armed tnow status f).2 ↔ f.leak = true) ∧
      (∀ m r, Effect.set_mode m r ∉ (set_leak_status d g armed tnow status f).2)) ∧
    (¬ (status = false ∨ g.failsafe_leak = d.FS_LEAK_DISABLED) →
      (set_leak_status d g armed tnow status f).1.leak = true ∧
      (Effect.Log_Write_Error .ERROR_SUBSYSTEM_FAILSAFE_LEAK .ERROR_CODE_FAILSAFE_OCCURRED
          ∈ (set_leak_status d g armed tnow status f).2 ↔ f.leak = false) ∧
      (Effect.set_mode .SURFACE .MODE_REASON_LEAK_FAILSAFE
          ∈ (set_leak_status d g armed tnow status f).2 ↔
        (f.leak = false ∧ g.failsafe_leak = d.FS_LEAK_SURFACE ∧ armed = true)) ∧
      (∀ m r, Effect.set_mode m r ∈ (set_leak_status d g armed tnow status f).2 →
        m = .SURFACE ∧ r = .MODE_REASON_LEAK_FAILSAFE)) := by
  by_cases h : status = false ∨ g.failsafe_leak = d.FS_LEAK_DISABLED
  · rw [set_leak_status_dry d g armed tnow status f h]
    refine ⟨⟨_, rfl, ?_⟩, fun _ => ⟨rfl, ?_, ?_⟩, fun h' => absurd h h'⟩
    · intro b
      split_ifs <;> simp
    · cases hl : f.leak <;> simp
    · intro m r
      split_ifs <;> simp
  · rw [set_leak_status_wet d g armed tnow status f h]
    refine ⟨⟨_, rfl, ?_⟩, fun h' => absurd h' h, fun _ => ⟨rfl, ?_, ?_, ?_⟩⟩
    · intro b
      cases hl : f.leak <;> by_cases hw : tnow > add32 f.last_leak_warn_ms 20000 <;>
        by_cases hs : g.failsafe_leak = d.FS_LEAK_SURFACE ∧ armed = true <;> simp [hw, hs]
    · cases hl : f.leak <;> by_cases hw : tnow > add32 f.last_leak_warn_ms 20000 <;>
        by_cases hs : g.failsafe_leak = d.FS_LEAK_SURFACE ∧ armed = true <;> simp [hw, hs]
    · cases hl : f.leak <;> by_cases hw : tnow > add32 f.last_leak_warn_ms 20000 <;>
        by_cases hs : g.failsafe_leak = d.FS_LEAK_SURFACE ∧ armed = true <;>
        simp [hw, hs]
    · intro m r
      cases hl : f.leak <;> by_cases hw : tnow > add32 f.last_leak_warn_ms 20000 <;>
        by_cases hs : g.failsafe_leak = d.FS_LEAK_SURFACE ∧ armed = true <;>
        simp [hw, hs]

/-- Witness for C16: a leak reported with the action SURFACE, the motors armed
and the flag clear: the surface mode is requested. -/
theorem C16_leak_state_and_action_witness :
    Effect.set_mode .SURFACE .MODE_REASON_LEAK_FAILSAFE
      ∈ (set_leak_status sample_defines { sample_parameters with failsafe_leak := 2 }
          true 50000 true {}).2 ∧
    (set_leak_status sample_defines { sample_parameters with failsafe_leak := 2 }
      true 50000 true {}).2
      = [Effect.notify_leak_detected true,
         Effect.gcs_send_text .MAV_SEVERITY_CRITICAL .leak_detected,
         Effect.Log_Write_Error .ERROR_SUBSYSTEM_FAILSAFE_LEAK .ERROR_CODE_FAILSAFE_OCCURRED,
         Effect.set_mode .SURFACE .MODE_REASON_LEAK_FAILSAFE] :=
  ⟨((C16_leak_state_and_action sample_defines { sample_parameters with failsafe_leak := 2 }
        true 50000 true {}).2.2 (by decide)).2.2.1.mpr ⟨rfl, rfl, rfl⟩,
   by decide⟩

/-! ## Terrain-data monitor -/

/-- C17. After `failsafe_terrain_check`, `failsafe.terrain` equals the trigger
value: the mode is AUTO or GUIDED, and `terrain_last_failure_ms -
terrain_first_failure_ms` (a `uint32_t` difference) exceeds
`FS_TERRAIN_TIMEOUT_MS` (5000 ms). When the trigger value equals the stored
flag the call changes nothing and requests nothing. On a rising edge the
call sends the critical warning and then runs the on-event path, which sets
the flag and starts with the "occurred" log. On a falling edge the call
clears the flag and its only effect is the "resolved" log. -/
theorem C17_terrain_trigger_equation (d : Defines) (g : Parameters) (m : control_mode_t)
    (rangefinder_enabled recover_ok poshold_ok : Bool) (f : Failsafe) :
    ((failsafe_terrain_check d g m rangefinder_enabled recover_ok poshold_ok f).1.terrain = true ↔
      ((m = .AUTO ∨ m = .GUIDED) ∧
        sub32 f.terrain_last_failure_ms f.terrain_first_failure_ms
          > d.FS_TERRAIN_TIMEOUT_MS)) ∧
    ((f.terrain = true ↔
        ((m = .AUTO ∨ m = .GUIDED) ∧
          sub32 f.terrain_last_failure_ms f.terrain_first_failure_ms
            > d.FS_TERRAIN_TIMEOUT_MS)) →
      failsafe_terrain_check d g m rangefinder_enabled recover_ok poshold_ok f = (f, [])) ∧
    (f.terrain = false →
      ((m = .AUTO ∨ m = .GUIDED) ∧
        sub32 f.terrain_last_failure_ms f.terrain_first_failure_ms
          > d.FS_TERRAIN_TIMEOUT_MS) →
      failsafe_terrain_check d g m rangefinder_enabled recover_ok poshold_ok f =
        ((failsafe_terrain_on_event d g rangefinder_enabled recover_ok poshold_ok f).1,
         Effect.gcs_send_text .MAV_SEVERITY_CRITICAL .failsafe_terrain_triggered ::
           (failsafe_terrain_on_event d g rangefinder_enabled recover_ok poshold_ok f).2) ∧
      (∃ rest, (failsafe_terrain_on_event d g rangefinder_enabled recover_ok poshold_ok f).2 =
        Effect.Log_Write_Error .ERROR_SUBSYSTEM_FAILSAFE_TERRAIN
          .ERROR_CODE_FAILSAFE_OCCURRED :: rest)) ∧
    (f.terrain = true →
      ¬ ((m = .AUTO ∨ m = .GUIDED) ∧
        sub32 f.terrain_last_failure_ms f.terrain_first_failure_ms
          > d.FS_TERRAIN_TIMEOUT_MS) →
      failsafe_terrain_check d g m rangefinder_enabled recover_ok poshold_ok f =
        ({ f with terrain := false },
         [Effect.Log_Write_Error .ERROR_SUBSYSTEM_FAILSAFE_TERRAIN
            .ERROR_CODE_ERROR_RESOLVED])) := by
  have hon : (failsafe_terrain_on_event d g rangefinder_enabled recover_ok poshold_ok f).1.terrain
      = true := by
    unfold failsafe_terrain_on_event
    split_ifs <;> rfl
  have hlog : ∃ rest,
      (failsafe_terrain_on_event d g rangefinder_enabled recover_ok poshold_ok f).2 =
        Effect.Log_Write_Error .ERROR_SUBSYSTEM_FAILSAFE_TERRAIN
          .ERROR_CODE_FAILSAFE_OCCURRED :: rest := by
    unfold failsafe_terrain_on_event
    split_ifs <;> exact ⟨_, rfl⟩
  by_cases ht : (m = .AUTO ∨ m = .GUIDED) ∧
      sub32 f.terrain_last_failure_ms f.terrain_first_failure_ms > d.FS_TERRAIN_TIMEOUT_MS
  · have hv : (decide (m = control_mode_t.AUTO ∨ m = control_mode_t.GUIDED) &&
        decide (sub32 f.terrain_last_failure_ms f.terrain_first_failure_ms
          > d.FS_TERRAIN_TIMEOUT_MS)) = true := by
      simp [ht.1, ht.2]
    cases hf : f.terrain
    · have hc : failsafe_terrain_check d g m rangefinder_enabled recover_ok poshold_ok f =
          ((failsafe_terrain_on_event d g rangefinder_enabled recover_ok poshold_ok f).1,
           Effect.gcs_send_text .MAV_SEVERITY_CRITICAL .failsafe_terrain_triggered ::
             (failsafe_terrain_on_event d g rangefinder_enabled recover_ok poshold_ok f).2) := by
        unfold failsafe_terrain_check
        simp only [hv, hf]
        simp
      rw [hc]
      refine ⟨⟨fun _ => ht, fun _ => hon⟩, fun h => ?_, fun _ _ => ⟨rfl, hlog⟩, fun h => ?_⟩
      · exact absurd (h.mpr ht) (by simp)
      · exact absurd h (by simp)
    · have hc : failsafe_terrain_check d g m rangefinder_enabled recover_ok poshold_ok f
          = (f, []) := by
        unfold failsafe_terrain_check
        simp only [hv, hf]
        simp
      rw [hc]
      refine ⟨⟨fun _ => ht, fun _ => hf⟩, fun _ => rfl, fun h => ?_, fun _ h => absurd ht h⟩
      exact absurd h (by simp)
  · have hv : (decide (m = control_mode_t.AUTO ∨ m = control_mode_t.GUIDED) &&
        decide (sub32 f.terrain_last_failure_ms f.terrain_first_failure_ms
          > d.FS_TERRAIN_TIMEOUT_MS)) = false := by
      rw [← Bool.not_eq_true]
      intro h
      simp only [Bool.and_eq_true, decide_eq_true_eq] at h
      exact ht h
    cases hf : f.terrain
    · have hc : failsafe_terrain_check d g m rangefinder_enabled recover_ok poshold_ok f
          = (f, []) := by
        unfold failsafe_terrain_check
        simp only [hv, hf]
        simp
      rw [hc]
      refine ⟨⟨fun h => ?_, fun h => absurd h ht⟩, fun _ => rfl, fun _ h => absurd h ht,
        fun h => ?_⟩
      · rw [hf] at h
        exact absurd h (by simp)
      · exact absurd h (by simp)
    · have hc : failsafe_terrain_check d g m rangefinder_enabled recover_ok poshold_ok f =
          ({ f with terrain := false },
           [Effect.Log_Write_Error .ERROR_SUBSYSTEM_FAILSAFE_TERRAIN
              .ERROR_CODE_ERROR_RESOLVED]) := by
        unfold failsafe_terrain_check
        simp only [hv, hf]
        simp
      rw [hc]
      refine ⟨⟨fun h => ?_, fun h => absurd h ht⟩, fun h => ?_, fun h => ?_, fun _ _ => rfl⟩
      · exact absurd h (by simp)
      · exact absurd (h.mp rfl) ht
      · exact absurd h (by simp)

/-- Witness for C17: in AUTO with failures recorded from 1000 ms to 6001 ms
(more than 5000 ms), the rangefinder disabled and the action DISARM, the
check raises the flag, warns, logs "occurred" and disarms; in STABILIZE the
same timestamps with the flag set give the falling edge. -/
theorem C17_terrain_trigger_equation_witness :
    failsafe_terrain_check sample_defines { sample_parameters with failsafe_terrain := 2 }
        .AUTO false false false
        { terrain_first_failure_ms := 1000, terrain_last_failure_ms := 6001 }
      = ({ terrain_first_failure_ms := 1000, terrain_last_failure_ms := 6001, terrain := true },
         [Effect.gcs_send_text .MAV_SEVERITY_CRITICAL .failsafe_terrain_triggered,
          Effect.Log_Write_Error .ERROR_SUBSYSTEM_FAILSAFE_TERRAIN
            .ERROR_CODE_FAILSAFE_OCCURRED,
          Effect.init_disarm_motors]) ∧
    failsafe_terrain_check sample_defines { sample_parameters with failsafe_terrain := 2 }
        .STABILIZE false false false
        { terrain_first_failure_ms := 1000, terrain_last_failure_ms := 6001, terrain := true }
      = ({ terrain_first_failure_ms := 1000, terrain_last_failure_ms := 6001, terrain := false },
         [Effect.Log_Write_Error .ERROR_SUBSYSTEM_FAILSAFE_TERRAIN
            .ERROR_CODE_ERROR_RESOLVED]) :=
  ⟨((C17_terrain_trigger_equation sample_defines
        { sample_parameters with failsafe_terrain := 2 } .AUTO false false false
        { terrain_first_failure_ms := 1000, terrain_last_failure_ms := 6001 }).2.2.1
      rfl (by decide)).1.trans (by decide),
   (C17_terrain_trigger_equation sample_defines
        { sample_parameters with failsafe_terrain := 2 } .STABILIZE false false false
        { terrain_first_failure_ms := 1000, terrain_last_failure_ms := 6001,
          terrain := true }).2.2.2 rfl (by decide)⟩

/-- While a streak opened at `t0` is open, calls that each come less than
100 ms after the previous call `p`, with every success directly after a
failure, never clear the timestamps. -/
theorem terrain_run_streak_open (t0 : Nat) (rest : List TerrainCall) (p : TerrainCall)
    (s : Failsafe) (ht0 : 0 < t0)
    (hfirst : s.terrain_first_failure_ms = t0)
    (hlo : t0 ≤ s.terrain_last_failure_ms) (hhi : s.terrain_last_failure_ms ≤ p.now)
    (hp : p.data_ok = false → s.terrain_last_failure_ms = p.now)
    (hlt : ∀ c ∈ rest, c.now < U32)
    (hchain : List.Chain (fun a b : TerrainCall =>
      a.now ≤ b.now ∧ b.now < a.now + 100 ∧ (b.data_ok = true → a.data_ok = false)) p rest) :
    ∀ r ∈ terrain_run s rest,
      r.before.terrain_first_failure_ms = t0 ∧
      r.after.terrain_first_failure_ms = t0 ∧
      (r.call.data_ok = false → r.after.terrain_last_failure_ms = r.call.now) ∧
      (r.call.data_ok = true →
        r.after.terrain_last_failure_ms = r.before.terrain_last_failure_ms) ∧
      t0 ≤ r.after.terrain_last_failure_ms ∧
      r.before.terrain_last_failure_ms ≤ r.after.terrain_last_failure_ms := by
  induction rest generalizing p s with
  | nil => intro r hr; simp [terrain_run] at hr
  | cons c rest ih =>
    rw [List.chain_cons] at hchain
    obtain ⟨⟨hle, hgap, halt⟩, hchain⟩ := hchain
    have hc := hlt c (List.mem_cons_self _ _)
    have hne : ¬ (s.terrain_first_failure_ms = 0) := by omega
    have hfail : c.data_ok = false → failsafe_terrain_set_status c.now c.data_ok s =
        { s with terrain_last_failure_ms := c.now } := by
      intro hd
      unfold failsafe_terrain_set_status
      simp [hd, hne]
    have hok : c.data_ok = true → failsafe_terrain_set_status c.now c.data_ok s = s := by
      intro hd
      have hpl := hp (halt hd)
      have hsub : ¬ (sub32 c.now s.terrain_last_failure_ms > 100) := by
        rw [hpl]
        simp only [sub32, U32] at hc ⊢
        omega
      unfold failsafe_terrain_set_status
      simp [hd, hsub]
    intro r hr
    rw [terrain_run, List.mem_cons] at hr
    cases hd : c.data_ok
    · rw [hfail hd] at hr
      rcases hr with hr | hr
      · subst hr
        exact ⟨hfirst, hfirst, fun _ => rfl, fun h => absurd (hd.symm.trans h) (by simp),
          le_trans hlo (le_trans hhi hle), le_trans hhi hle⟩
      · exact ih c { s with terrain_last_failure_ms := c.now } hfirst
          (le_trans hlo (le_trans hhi hle)) (le_refl _) (fun _ => rfl)
          (fun c' hc' => hlt c' (List.mem_cons_of_mem _ hc')) hchain r hr
    · rw [hok hd] at hr
      rcases hr with hr | hr
      · subst hr
        exact ⟨hfirst, hfirst, fun h => absurd (hd.symm.trans h) (by simp), fun _ => rfl,
          hlo, le_refl _⟩
      · exact ih c s hfirst hlo (le_trans hhi hle)
          (fun h => absurd (hd.symm.trans h) (by simp))
          (fun c' hc' => hlt c' (List.mem_cons_of_mem _ hc')) hchain r hr

/-- C18 (the claim as stated fails). With both timestamps unset, a failure at
0 ms, a success at 50 ms and a failure at 90 ms: the first failure leaves
`terrain_first_failure_ms` at 0, the "unset" value, so the third call records
90 as the first failure time and the streak duration `last - first` is 0
instead of 90. -/
theorem C18_terrain_first_failure_at_zero :
    (terrain_run {} [⟨0, false⟩, ⟨50, true⟩, ⟨90, false⟩]).map
      (fun r => (r.call.now, r.after.terrain_first_failure_ms, r.after.terrain_last_failure_ms))
    = [(0, 0, 0), (50, 0, 0), (90, 90, 90)] := by
  decide

/-- C18 (amended). Starting with `terrain_first_failure_ms` unset (zero), for
every sequence of `failsafe_terrain_set_status` calls with non-decreasing
`uint32_t` times that begins with a failure at a nonzero time `t0` and in
which every call comes less than 100 ms after the previous one and every
success directly follows a failure (as when failures and successes
alternate), no call clears the timestamps: after every call
`terrain_first_failure_ms` is `t0`; a failure call sets
`terrain_last_failure_ms` to its own time and a success call leaves it as it
is, so it is always the time of the most recent failure; and it never
decreases once the streak is open, so `last - first` keeps growing. -/
theorem C18_terrain_streak_not_closed (f : Failsafe) (t0 : Nat) (rest : List TerrainCall)
    (hf : f.terrain_first_failure_ms = 0) (ht0 : 0 < t0)
    (hlt : ∀ c ∈ rest, c.now < U32)
    (hchain : List.Chain (fun a b : TerrainCall =>
      a.now ≤ b.now ∧ b.now < a.now + 100 ∧ (b.data_ok = true → a.data_ok = false))
      ⟨t0, false⟩ rest) :
    ∀ r ∈ terrain_run f (⟨t0, false⟩ :: rest),
      r.after.terrain_first_failure_ms = t0 ∧
      (r.call.data_ok = false → r.after.terrain_last_failure_ms = r.call.now) ∧
      (r.call.data_ok = true →
        r.after.terrain_last_failure_ms = r.before.terrain_last_failure_ms) ∧
      t0 ≤ r.after.terrain_last_failure_ms ∧
      (r.before.terrain_first_failure_ms = t0 →
        r.before.terrain_last_failure_ms ≤ r.after.terrain_last_failure_ms) := by
  have h1 : failsafe_terrain_set_status t0 false f =
      { f with terrain_last_failure_ms := t0, terrain_first_failure_ms := t0 } := by
    unfold failsafe_terrain_set_status
    simp [hf]
  intro r hr
  rw [terrain_run, List.mem_cons] at hr
  rcases hr with hr | hr
  · subst hr
    rw [h1]
    refine ⟨rfl, fun _ => rfl, fun h => absurd h (by simp), le_refl _, fun h => ?_⟩
    have h' : f.terrain_first_failure_ms = t0 := h
    omega
  · rw [h1] at hr
    have h := terrain_run_streak_open t0 rest ⟨t0, false⟩ _ ht0 rfl (le_refl _) (le_refl _)
      (fun _ => rfl) hlt hchain r hr
    exact ⟨h.2.1, h.2.2.1, h.2.2.2.1, h.2.2.2.2.1, fun _ => h.2.2.2.2.2⟩

/-- Witness for C18 (amended): a failure at 1000 ms, then success, failure,
success at 1050, 1090 and 1150 ms. -/
theorem C18_terrain_streak_not_closed_witness :
    (terrain_run {} [⟨1000, false⟩, ⟨1050, true⟩, ⟨1090, false⟩, ⟨1150, true⟩]).map
        (fun r => (r.after.terrain_first_failure_ms, r.after.terrain_last_failure_ms))
      = [(1000, 1000), (1000, 1000), (1000, 1090), (1000, 1090)] ∧
    ∀ r ∈ terrain_run {} [⟨1000, false⟩, ⟨1050, true⟩, ⟨1090, false⟩, ⟨1150, true⟩],
      r.after.terrain_first_failure_ms = 1000 :=
  ⟨by decide,
   fun r hr => (C18_terrain_streak_not_closed {} 1000
      [⟨1050, true⟩, ⟨1090, false⟩, ⟨1150, true⟩] rfl (by decide) (by decide) (by simp)
      r hr).1⟩

/-- C19. `failsafe_terrain_on_event` sets `failsafe.terrain`, logs "occurred"
first, calls the recovery hook `auto_terrain_recover_start` exactly when the
rangefinder is enabled (never when it is disabled), and then applies
`failsafe_terrain_act` if and only if NOT (rangefinder enabled AND the hook
accepts). `failsafe_terrain_act` with action HOLD attempts
`set_mode(POSHOLD)` first, attempts `set_mode(ALT_HOLD)` if and only if
POSHOLD was rejected, and raises the mode-change notification in both cases;
with action SURFACE it requests only `set_mode(SURFACE)` and raises the
notification; with DISARM or any other value it only calls
`init_disarm_motors`. -/
theorem C19_terrain_on_event_and_act (d : Defines) (g : Parameters)
    (rangefinder_enabled recover_ok poshold_ok : Bool) (f : Failsafe) :
    (failsafe_terrain_on_event d g rangefinder_enabled recover_ok poshold_ok f).1
      = { f with terrain := true } ∧
    (failsafe_terrain_on_event d g rangefinder_enabled recover_ok poshold_ok f).2
      = Effect.Log_Write_Error .ERROR_SUBSYSTEM_FAILSAFE_TERRAIN .ERROR_CODE_FAILSAFE_OCCURRED
        :: ((if rangefinder_enabled = true then [Effect.auto_terrain_recover_start] else [])
          ++ (if ¬ (rangefinder_enabled = true ∧ recover_ok = true) then
                failsafe_terrain_act d g poshold_ok
              else [])) ∧
    Effect.auto_terrain_recover_start ∉ failsafe_terrain_act d g poshold_ok ∧
    (rangefinder_enabled = false →
      Effect.auto_terrain_recover_start
        ∉ (failsafe_terrain_on_event d g rangefinder_enabled recover_ok poshold_ok f).2) ∧
    (g.failsafe_terrain = d.FS_TERRAIN_HOLD →
      failsafe_terrain_act d g poshold_ok =
        if poshold_ok = true then
          [Effect.set_mode .POSHOLD .MODE_REASON_TERRAIN_FAILSAFE,
           Effect.notify_failsafe_mode_change]
        else
          [Effect.set_mode .POSHOLD .MODE_REASON_TERRAIN_FAILSAFE,
           Effect.set_mode .ALT_HOLD .MODE_REASON_TERRAIN_FAILSAFE,
           Effect.notify_failsafe_mode_change]) ∧
    (g.failsafe_terrain = d.FS_TERRAIN_SURFACE → d.FS_TERRAIN_SURFACE ≠ d.FS_TERRAIN_HOLD →
      failsafe_terrain_act d g poshold_ok =
        [Effect.set_mode .SURFACE .MODE_REASON_TERRAIN_FAILSAFE,
         Effect.notify_failsafe_mode_change]) ∧
    (g.failsafe_terrain ≠ d.FS_TERRAIN_HOLD → g.failsafe_terrain ≠ d.FS_TERRAIN_SURFACE →
      failsafe_terrain_act d g poshold_ok = [Effect.init_disarm_motors]) := by
  have hact : Effect.auto_terrain_recover_start ∉ failsafe_terrain_act d g poshold_ok := by
    unfold failsafe_terrain_act
    split_ifs <;> simp
  refine ⟨?_, ?_, hact, ?_, ?_, ?_, ?_⟩
  · unfold failsafe_terrain_on_event
    split_ifs <;> rfl
  · unfold failsafe_terrain_on_event
    cases rangefinder_enabled <;> cases recover_ok <;> simp
  · intro hr
    subst hr
    unfold failsafe_terrain_on_event
    simpa using hact
  · intro h
    unfold failsafe_terrain_act
    cases poshold_ok <;> simp [h]
  · intro h hne
    unfold failsafe_terrain_act
    simp [h, hne]
  · intro h1 h2
    unfold failsafe_terrain_act
    simp [h1, h2]

/-- Witness for C19: action HOLD, rangefinder enabled, recovery refused and
POSHOLD rejected: the log, the hook, POSHOLD, the ALT_HOLD fallback and the
notification, in this order. -/
theorem C19_terrain_on_event_and_act_witness :
    (failsafe_terrain_on_event sample_defines sample_parameters true false false {}).2
      = [Effect.Log_Write_Error .ERROR_SUBSYSTEM_FAILSAFE_TERRAIN
           .ERROR_CODE_FAILSAFE_OCCURRED,
         Effect.auto_terrain_recover_start,
         Effect.set_mode .POSHOLD .MODE_REASON_TERRAIN_FAILSAFE,
         Effect.set_mode .ALT_HOLD .MODE_REASON_TERRAIN_FAILSAFE,
         Effect.notify_failsafe_mode_change] :=
  (C19_terrain_on_event_and_act sample_defines sample_parameters true false false {}).2.1.trans
    (by decide)

/-! ## Disarm policy -/

/-- C20. `should_disarm_on_failsafe` is a function of the control mode and the
two flags only, and returns a value without touching any state: it returns
`throttle_zero` in STABILIZE and ACRO, `!auto_armed` in AUTO, and false in
every other mode whatever the flags. -/
theorem C20_should_disarm_decision_table (m : control_mode_t) (throttle_zero auto_armed : Bool) :
    (m = .STABILIZE ∨ m = .ACRO →
      should_disarm_on_failsafe m throttle_zero auto_armed = throttle_zero) ∧
    (m = .AUTO → should_disarm_on_failsafe m throttle_zero auto_armed = !auto_armed) ∧
    (m ≠ .STABILIZE → m ≠ .ACRO → m ≠ .AUTO →
      should_disarm_on_failsafe m throttle_zero auto_armed = false) := by
  refine ⟨?_, ?_, ?_⟩
  · rintro (h | h) <;> subst h <;> rfl
  · intro h
    subst h
    rfl
  · intro h1 h2 h3
    cases m <;> first | rfl | exact absurd rfl h1 | exact absurd rfl h2 | exact absurd rfl h3

/-- Witness for C20: the table at one input of each row. -/
theorem C20_should_disarm_decision_table_witness :
    should_disarm_on_failsafe .ACRO true true = true ∧
    should_disarm_on_failsafe .AUTO true true = false ∧
    should_disarm_on_failsafe .GUIDED true false = false :=
  ⟨(C20_should_disarm_decision_table .ACRO true true).1 (Or.inr rfl),
   (C20_should_disarm_decision_table .AUTO true true).2.1 rfl,
   (C20_should_disarm_decision_table .GUIDED true false).2.2
     (by decide) (by decide) (by decide)⟩

end ArduSub
